import Mathlib

/-!
Verification development for the Cactus chess engine core (Rust sources under
`src/src/engine/`).  The Rust code is shallowly embedded:

* `u64` values are `Nat` kept below `2^64`; bitwise ops are `Nat.land`,
  `Nat.lor`, `Nat.xor`; complement is xor with `2^64 - 1`.
* `i32` values are `Int`.  On the modelled paths no `i32` arithmetic
  overflows, so plain `Int` arithmetic is used.  Casts `as u16` / `as u64`
  take the two's-complement low bits explicitly.
* `usize` values are `Nat`; subtraction uses `usizeSub`, the release-mode
  two's-complement wrapping subtraction (Rust release builds wrap on
  overflow).  Shift amounts of `u64` shifts are masked modulo 64 as in
  release builds.
* Rust panics (out-of-bounds indexing, `todo!()`, string slicing out of
  range) are modelled by `Option`: a function that can panic returns
  `none` in exactly the situations in which the Rust code panics.
* Stateful code is embedded by explicit state passing: `&mut` methods
  become functions from the structure to (`Option` of) the structure.
  Fixed-size Rust arrays are embedded as functions `Nat → α` together with
  bounds-checked accessors mirroring the Rust indexing.
* Rust `Instant`-based time sampling is modelled by a boolean field
  `timer_expired` of the searcher state, and the floating-point static
  evaluator is a parameter `evalFn : Board → Int` of the search functions
  (floating point does not embed shallowly).
-/

namespace Cactus

set_option maxHeartbeats 1600000
set_option maxRecDepth 100000

/-- Modulus of `u64` arithmetic. -/
def U64MOD : Nat := 2 ^ 64

/-- Complement of a `u64` value (`!x` in Rust). -/
def not64 (x : Nat) : Nat := Nat.xor x (U64MOD - 1)

/-- Release-mode wrapping subtraction on `usize` values below `2^64`. -/
def usizeSub (a b : Nat) : Nat := (a + (U64MOD - b % U64MOD)) % U64MOD

/-- Shift amount of a `u64` shift by an `i32` count, masked modulo 64 as in
Rust release builds. -/
def mask6 (i : Int) : Nat := (i % 64).toNat

/-- Left shift of a `u64` by an `i32` amount (release semantics), truncated
to 64 bits. -/
def shl64 (x : Nat) (i : Int) : Nat := (x <<< mask6 i) % U64MOD

/-- Right shift of a `u64` by an `i32` amount (release semantics). -/
def shr64 (x : Nat) (i : Int) : Nat := x >>> mask6 i

/-- Two's-complement low 16 bits of an `i32`, i.e. the Rust cast `as u16`. -/
def toU16 (i : Int) : Nat := (i % 65536).toNat

/-- Two's-complement low 32 bits of an `i32`, i.e. the Rust cast `as u32`. -/
def toU32 (i : Int) : Nat := (i % 4294967296).toNat

/-- Bounds-checked read of a Rust array of length `size` indexed by an
`i32` (`arr[i as usize]`); `none` models the out-of-bounds panic, which a
negative index always triggers after the `as usize` cast. -/
def rustGet {α : Type} (size : Nat) (f : Nat → α) (i : Int) : Option α :=
  if 0 ≤ i ∧ i < (size : Int) then some (f i.toNat) else none

/-- Bounds-checked write of a Rust array of length `size` indexed by an
`i32`. -/
def rustSet {α : Type} (size : Nat) (f : Nat → α) (i : Int) (v : α) : Option (Nat → α) :=
  if 0 ≤ i ∧ i < (size : Int) then
    some (fun j => if j = i.toNat then v else f j)
  else none

/-- Bounds-checked read of a Rust array of length `size` indexed by a
`usize`. -/
def rustGetN {α : Type} (size : Nat) (f : Nat → α) (i : Nat) : Option α :=
  if i < size then some (f i) else none

/-- Bounds-checked write of a Rust array of length `size` indexed by a
`usize`. -/
def rustSetN {α : Type} (size : Nat) (f : Nat → α) (i : Nat) (v : α) : Option (Nat → α) :=
  if i < size then some (fun j => if j = i then v else f j) else none

/-- Bounds-checked read of a `Vec` (embedded as a list) at a `usize` index. -/
def vecGet {α : Type} (l : List α) (i : Nat) : Option α := l.get? i

/-- Bounds-checked in-place write of a `Vec` element (`v[i] = x`). -/
def vecSet {α : Type} (l : List α) (i : Nat) (v : α) : Option (List α) :=
  if i < l.length then some (l.set i v) else none

/-- Swap of two `Vec` elements (`v.swap(i, j)`), with the bounds checks of
the Rust implementation. -/
def vecSwap {α : Type} (l : List α) (i j : Nat) : Option (List α) := do
  let a ← vecGet l i
  let b ← vecGet l j
  let l1 ← vecSet l i b
  vecSet l1 j a

/-- Rust inclusive range `a..=b` over `i32` bounds, empty when `a > b`
(as `7..=0` is in `current_fen`). -/
def rustRangeIncl (a b : Int) : List Int :=
  if a ≤ b then (List.range (b - a + 1).toNat).map (fun k => a + k) else []

/-- Rust exclusive range `a..b` over `i32` bounds, empty when `a ≥ b`. -/
def rustRange (a b : Int) : List Int :=
  if a ≤ b then (List.range (b - a).toNat).map (fun k => a + k) else []

/-- Count of trailing zeros of a `u64` (`u64::trailing_zeros`), 64 for 0. -/
def trailingZeros (b : Nat) : Nat :=
  (List.range 64).foldl (fun acc i => if acc = 64 ∧ b.testBit i then i else acc) 64

/-- Display of an `i32` as Rust's `format!("{}", i)`. -/
def intDisplay (i : Int) : String :=
  if i < 0 then "-" ++ toString (-i).toNat else toString i.toNat

/-- Containment of a character in a string (`str::contains(char)`),
computed over the character list so that proofs can evaluate it. -/
def strContains (s : String) (c : Char) : Bool := s.toList.contains c

/-- Split of a string at every occurrence of a separator character
(Rust `str::split(sep)`): consecutive separators and separators at the
ends yield empty fields. -/
def strSplitChar (s : String) (sep : Char) : List String :=
  let step := s.toList.foldl
    (fun (st : List String × List Char) c =>
      if c = sep then (st.1 ++ [String.mk st.2.reverse], [])
      else (st.1, c :: st.2))
    ([], [])
  step.1 ++ [String.mk step.2.reverse]

/- ### coord.rs -/

/-- Coordinate on the board, `Coord { file_idx, rank_idx }` from `coord.rs`. -/
structure Coord where
  file_idx : Int
  rank_idx : Int
deriving DecidableEq

/-- Constructor `Coord::from((file_idx, rank_idx))`. -/
def Coord.fromPair (f r : Int) : Coord := ⟨f, r⟩

/-- Function `Coord::rank_of_square` (`square_idx >> 3`). -/
def Coord.rank_of_square (square_idx : Int) : Int := square_idx / 8

/-- Function `Coord::file_of_square` (`square_idx & 0b111`). -/
def Coord.file_of_square (square_idx : Int) : Int := square_idx % 8

/-- Constructor `Coord::new(square_idx)`. -/
def Coord.new (square_idx : Int) : Coord :=
  ⟨Coord.file_of_square square_idx, Coord.rank_of_square square_idx⟩

/-- Method `Coord::is_valid_square`. -/
def Coord.is_valid_square (c : Coord) : Bool :=
  0 ≤ c.file_idx && c.file_idx < 8 && 0 ≤ c.rank_idx && c.rank_idx < 8

/-- Method `Coord::index` (`rank_idx * 8 + file_idx`). -/
def Coord.index (c : Coord) : Int := c.rank_idx * 8 + c.file_idx

/-- Pointwise addition of coordinates (`impl Add for Coord`). -/
def Coord.add (a b : Coord) : Coord := ⟨a.file_idx + b.file_idx, a.rank_idx + b.rank_idx⟩

/-- Pointwise subtraction of coordinates (`impl Sub for Coord`). -/
def Coord.sub (a b : Coord) : Coord := ⟨a.file_idx - b.file_idx, a.rank_idx - b.rank_idx⟩

/-- Scalar multiplication of a coordinate (`impl Mul<i32> for Coord`). -/
def Coord.mul (a : Coord) (k : Int) : Coord := ⟨a.file_idx * k, a.rank_idx * k⟩

/-- File names `a`–`h` (`FILE_NAMES` in `board.rs`). -/
def FILE_NAMES : List Char := ['a', 'b', 'c', 'd', 'e', 'f', 'g', 'h']

/-- Rank names `1`–`8` (`RANK_NAMES` in `board.rs`). -/
def RANK_NAMES : List Char := ['1', '2', '3', '4', '5', '6', '7', '8']

/-- Method `Coord::to_string`: file letter followed by `rank_idx + 1`.
The file-letter lookup indexes `FILE_NAMES[file_idx as usize]` and panics
outside 0–7. -/
def Coord.toUciString (c : Coord) : Option String := do
  let f ← rustGet 8 (fun i => FILE_NAMES.getD i 'a') c.file_idx
  pure (String.push "" f ++ intDisplay (c.rank_idx + 1))

/-- Method `Coord::from_string`: the file is the first file letter contained
anywhere in the string, the rank the first rank digit contained anywhere,
`-1` when absent. -/
def Coord.from_string (name : String) : Coord :=
  let fi := match (List.range 8).find? (fun i => strContains name (FILE_NAMES.getD i 'a')) with
    | some i => (i : Int)
    | none => -1
  let ri := match (List.range 8).find? (fun i => strContains name (RANK_NAMES.getD i '1')) with
    | some i => (i : Int)
    | none => -1
  ⟨fi, ri⟩

/- ### piece.rs -/

namespace Piece

/-- Piece type constant `NONE` from `piece.rs`. -/
def NONE : Int := 0

/-- Piece type constant `PAWN`. -/
def PAWN : Int := 1

/-- Piece type constant `KNIGHT`. -/
def KNIGHT : Int := 2

/-- Piece type constant `BISHOP`. -/
def BISHOP : Int := 3

/-- Piece type constant `ROOK`. -/
def ROOK : Int := 4

/-- Piece type constant `QUEEN`. -/
def QUEEN : Int := 5

/-- Piece type constant `KING`. -/
def KING : Int := 6

/-- Color constant `WHITE` (0). -/
def WHITE : Int := 0

/-- Color constant `BLACK` (8). -/
def BLACK : Int := 8

/-- Highest colored piece index ( `BLACK_KING = 14` ). -/
def MAX_PIECE_INDEX : Nat := 14

/-- Array `PIECE_INDICES` of the 12 colored piece values. -/
def PIECE_INDICES : List Int := [1, 2, 3, 4, 5, 6, 9, 10, 11, 12, 13, 14]

/-- Piece value from type and color (`Piece::from((type, color))`,
`type | color`; for the in-range values used this equals addition). -/
def fromTypeColor (t c : Int) : Int := t + c

/-- Method `Piece::get_type` (`value & 0b0111`). -/
def get_type (v : Int) : Int := (Nat.land (toU32 v) 7 : Nat)

/-- Method `Piece::get_color` (`value & 0b1000`). -/
def get_color (v : Int) : Int := (Nat.land (toU32 v) 8 : Nat)

/-- Method `Piece::is_color`. -/
def is_color (v c : Int) : Bool := get_color v = c && v ≠ 0

/-- Method `Piece::is_white`. -/
def is_white (v : Int) : Bool := is_color v WHITE

/-- Method `Piece::can_ortho_slide` (queen or rook). -/
def can_ortho_slide (v : Int) : Bool := get_type v = QUEEN || get_type v = ROOK

/-- Method `Piece::can_diag_slide` (queen or bishop). -/
def can_diag_slide (v : Int) : Bool := get_type v = QUEEN || get_type v = BISHOP

/-- Method `Piece::get_symbol`. -/
def get_symbol (v : Int) : Char :=
  match get_type v, get_color v with
  | 4, 8 => 'r' | 2, 8 => 'n' | 3, 8 => 'b' | 5, 8 => 'q' | 6, 8 => 'k' | 1, 8 => 'p'
  | 4, 0 => 'R' | 2, 0 => 'N' | 3, 0 => 'B' | 5, 0 => 'Q' | 6, 0 => 'K' | 1, 0 => 'P'
  | _, _ => ' '

/-- Conversion `Piece::from(char)` (type only, no color). -/
def fromChar (c : Char) : Int :=
  match c with
  | 'R' => ROOK | 'r' => ROOK
  | 'N' => KNIGHT | 'n' => KNIGHT
  | 'B' => BISHOP | 'b' => BISHOP
  | 'Q' => QUEEN | 'q' => QUEEN
  | 'K' => KING | 'k' => KING
  | 'P' => PAWN | 'p' => PAWN
  | _ => NONE

/-- Modelled from the spec: `piece::get_piece_value`, referenced by
`move_ordering.rs` but not present under `src/`; §4.4 of the spec fixes the
material values P=100, N=300, B=320, R=500, Q=900 (other types score 0). -/
def get_piece_value (t : Int) : Int :=
  if t = PAWN then 100
  else if t = KNIGHT then 300
  else if t = BISHOP then 320
  else if t = ROOK then 500
  else if t = QUEEN then 900
  else 0

end Piece

/-- Piece list from `piece.rs`: a compact array of occupied squares with a
square-to-index map. -/
structure PieceList where
  occupied_squares : Nat → Int
  map : Nat → Nat
  num_pieces : Nat

/-- Constructor `PieceList::new`. -/
def PieceList.new : PieceList := ⟨fun _ => 0, fun _ => 0, 0⟩

/-- Method `PieceList::count`. -/
def PieceList.count (l : PieceList) : Nat := l.num_pieces

/-- Method `PieceList::add_piece`. -/
def PieceList.add_piece (l : PieceList) (square : Int) : Option PieceList := do
  let occ ← rustSetN 16 l.occupied_squares l.num_pieces square
  let m ← rustSet 64 l.map square l.num_pieces
  pure ⟨occ, m, l.num_pieces + 1⟩

/-- Method `PieceList::remove_piece` (swap-remove through the map). -/
def PieceList.remove_piece (l : PieceList) (square : Int) : Option PieceList := do
  let idx ← rustGet 64 l.map square
  let last ← rustGetN 16 l.occupied_squares (usizeSub l.num_pieces 1)
  let occ ← rustSetN 16 l.occupied_squares idx last
  let moved ← rustGetN 16 occ idx
  let m ← rustGet 64 l.map square
  let _ := m
  let mp ← rustSet 64 l.map moved idx
  pure ⟨occ, mp, usizeSub l.num_pieces 1⟩

/-- Method `PieceList::move_piece`. -/
def PieceList.move_piece (l : PieceList) (start_square target_square : Int) :
    Option PieceList := do
  let idx ← rustGet 64 l.map start_square
  let occ ← rustSetN 16 l.occupied_squares idx target_square
  let m ← rustSet 64 l.map target_square idx
  pure ⟨occ, m, l.num_pieces⟩

/-- Indexing `piece_list[i]` (`impl Index<usize> for PieceList`). -/
def PieceList.get (l : PieceList) (i : Nat) : Option Int :=
  rustGetN 16 l.occupied_squares i

/- ### move.rs -/

/-- Move flag `NO_FLAG`. -/
def NO_FLAG : Int := 0

/-- Move flag `EN_PASSANT_CAPTURE_FLAG`. -/
def EN_PASSANT_CAPTURE_FLAG : Int := 1

/-- Move flag `CASTLE_FLAG`. -/
def CASTLE_FLAG : Int := 2

/-- Move flag `PAWN_TWO_UP_FLAG`. -/
def PAWN_TWO_UP_FLAG : Int := 3

/-- Move flag `PROMOTE_TO_QUEEN_FLAG`. -/
def PROMOTE_TO_QUEEN_FLAG : Int := 4

/-- Move flag `PROMOTE_TO_KNIGHT_FLAG`. -/
def PROMOTE_TO_KNIGHT_FLAG : Int := 5

/-- Move flag `PROMOTE_TO_ROOK_FLAG`. -/
def PROMOTE_TO_ROOK_FLAG : Int := 6

/-- Move flag `PROMOTE_TO_BISHOP_FLAG`. -/
def PROMOTE_TO_BISHOP_FLAG : Int := 7

/-- Packed 16-bit move representation from `move.rs`: bits 0–5 start square,
6–11 target square, 12–15 flag. -/
structure Move where
  value : Nat
deriving DecidableEq

/-- Constructor `Move::from((start_square, target_square))`, computed as the
two's-complement `i32` expression `start | target << 6` cast to `u16`. -/
def Move.fromStartTarget (s t : Int) : Move :=
  ⟨(Nat.lor (toU32 s) (Nat.lor (toU32 t <<< 6) 0)) % 65536⟩

/-- Constructor `Move::from((start_square, target_square, flag))`. -/
def Move.fromParts (s t f : Int) : Move :=
  ⟨(Nat.lor (toU32 s) (Nat.lor (toU32 t <<< 6) (toU32 f <<< 12))) % 65536⟩

/-- Constructor `Move::null` (value 0). -/
def Move.null : Move := ⟨0⟩

/-- Method `Move::is_null`. -/
def Move.is_null (m : Move) : Bool := m.value = 0

/-- Method `Move::start_square` (`value & 0b111111`). -/
def Move.start_square (m : Move) : Int := (Nat.land m.value 63 : Nat)

/-- Method `Move::target_square` (`(value & 0x0FC0) >> 6`). -/
def Move.target_square (m : Move) : Int := (Nat.land m.value 4032 >>> 6 : Nat)

/-- Method `Move::move_flag` (`value >> 12`). -/
def Move.move_flag (m : Move) : Int := (m.value >>> 12 : Nat)

/-- Method `Move::is_promotion`. -/
def Move.is_promotion (m : Move) : Bool := PROMOTE_TO_QUEEN_FLAG ≤ m.move_flag

/-- Method `Move::promotion_type`. -/
def Move.promotion_type (m : Move) : Int :=
  if m.move_flag = PROMOTE_TO_ROOK_FLAG then Piece.ROOK
  else if m.move_flag = PROMOTE_TO_KNIGHT_FLAG then Piece.KNIGHT
  else if m.move_flag = PROMOTE_TO_BISHOP_FLAG then Piece.BISHOP
  else if m.move_flag = PROMOTE_TO_QUEEN_FLAG then Piece.QUEEN
  else Piece.NONE

/- ### state.rs -/

/-- Castling-rights clear mask `CLEAR_WHITE_KINGSIDE_MASK` (`0b1110`). -/
def CLEAR_WHITE_KINGSIDE_MASK : Int := 14

/-- Castling-rights clear mask `CLEAR_WHITE_QUEENSIDE_MASK` (`0b1101`). -/
def CLEAR_WHITE_QUEENSIDE_MASK : Int := 13

/-- Castling-rights clear mask `CLEAR_BLACK_KINGSIDE_MASK` (`0b1011`). -/
def CLEAR_BLACK_KINGSIDE_MASK : Int := 11

/-- Castling-rights clear mask `CLEAR_BLACK_QUEENSIDE_MASK` (`0b0111`). -/
def CLEAR_BLACK_QUEENSIDE_MASK : Int := 7

/-- Seed `RNG_SEED` used by `Zobrist::new`. -/
def RNG_SEED : Nat := 29426028

/-- Modelled from the spec: one step of the deterministic fixed-seed
pseudo-random generator producing the Zobrist constants.  `state.rs` seeds
`rand::StdRng`, an external crate whose algorithm is not part of this
repository; the spec only requires "a fixed-seed deterministic set of
64-bit constants" (§3, Zobrist), so the draws are modelled with the
standard SplitMix64 generator.  Returns (new state, drawn value). -/
def splitmix64 (s : Nat) : Nat × Nat :=
  let s1 := (s + 0x9E3779B97F4A7C15) % U64MOD
  let z0 := s1
  let z1 := (Nat.xor z0 (z0 >>> 30) * 0xBF58476D1CE4E5B9) % U64MOD
  let z2 := (Nat.xor z1 (z1 >>> 27) * 0x94D049BB133111EB) % U64MOD
  (s1, Nat.xor z2 (z2 >>> 31))

/-- Modelled from the spec: the sequence of `random_u64` draws made by
`Zobrist::new`, in the order of the source (12 piece keys for each of the
64 squares, then castling indices 1–15, then en-passant files 1–8, then
the side-to-move key): 792 draws in total. -/
def zobristDraws : List Nat :=
  (List.range 792).foldl
    (fun acc _ =>
      let st := acc.1
      let p := splitmix64 st
      (p.1, p.2 :: acc.2))
    (RNG_SEED, ([] : List Nat))
  |>.2.reverse

/-- Draw number `n` (0-based) of the modelled Zobrist generator. -/
def zdraw (n : Nat) : Nat := zobristDraws.getD n 0

/-- Zobrist table from `state.rs`, carried inside every `State` as in the
source.  Array fields are embedded as functions. -/
structure Zobrist where
  key : Nat
  side_to_move : Nat
  pieces_array : Nat → Nat → Nat
  castling_rights : Nat → Nat
  en_passant_file : Nat → Nat

/-- Constructor `Zobrist::default` (all zeros). -/
def Zobrist.default : Zobrist := ⟨0, 0, fun _ _ => 0, fun _ => 0, fun _ => 0⟩

/-- Position of a colored piece value inside `PIECE_INDICES`, used to locate
its draw in the generation order of `Zobrist::new`. -/
def pieceDrawSlot (p : Nat) : Option Nat :=
  (List.range 12).find? (fun i => Piece.PIECE_INDICES.getD i 0 = (p : Int))

/-- Constructor `Zobrist::new`: fills the piece array (square-major, piece
order of `PIECE_INDICES`), castling keys 1–15 with index 0 zero,
en-passant file keys 1–8 with index 0 zero, and the side-to-move key, from
the successive draws of the generator. -/
def Zobrist.new : Zobrist :=
  { key := 0
    side_to_move := zdraw 791
    pieces_array := fun p sq =>
      if sq < 64 then
        match pieceDrawSlot p with
        | some slot => zdraw (sq * 12 + slot)
        | none => 0
      else 0
    castling_rights := fun i => if i = 0 ∨ 16 ≤ i then 0 else zdraw (768 + (i - 1))
    en_passant_file := fun i => if i = 0 ∨ 9 ≤ i then 0 else zdraw (783 + (i - 1)) }

/-- Irreversible state snapshot `State` from `state.rs`. -/
structure State where
  captured_piece_type : Int
  en_passant_file : Int
  castling_rights : Int
  halfmove_clock : Int
  zobrist : Zobrist

/-- Constructor `State::default`. -/
def State.default : State := ⟨0, 0, 0, 0, Zobrist.default⟩

/-- Constructor `State::new`. -/
def State.new (cap ep castle half : Int) (z : Zobrist) : State := ⟨cap, ep, castle, half, z⟩

/-- Method `State::can_castle_kingside`. -/
def State.can_castle_kingside (s : State) (white : Bool) : Bool :=
  Nat.land (toU32 s.castling_rights) (if white then 1 else 4) ≠ 0

/-- Method `State::can_castle_queenside`. -/
def State.can_castle_queenside (s : State) (white : Bool) : Bool :=
  Nat.land (toU32 s.castling_rights) (if white then 2 else 8) ≠ 0

/- ### fen.rs (import side) -/

/-- Starting-position FEN constant `STARTING_FEN`. -/
def STARTING_FEN : String := "rnbqkbnr/pppppppp/8/8/8/8/PPPPPPPP/RNBQKBNR w KQkq - 0 1"

/-- Parsed FEN record `PositionInfo` from `fen.rs`. -/
structure PositionInfo where
  fen : String
  squares : Nat → Int
  white_castle_kingside : Bool
  white_castle_queenside : Bool
  black_castle_kingside : Bool
  black_castle_queenside : Bool
  ep_file : Int
  white_to_move : Bool
  halfmove_clock : Nat
  move_count : Int

/-- Constructor `PositionInfo::default`. -/
def PositionInfo.default : PositionInfo :=
  ⟨"", fun _ => 0, false, false, false, false, 0, true, 0, 0⟩

/-- Board-section scan of `PositionInfo::new`: walks the placement field
updating `(squares, file, rank)`.  Writes `squares[rank * 8 + file]`; the
Rust indexing is on `usize` so negative ranks or overlarge files panic. -/
def fenScanSquares : List Char → (Nat → Int) → Int → Int → Option ((Nat → Int) × Int × Int)
  | [], sqs, file, rank => some (sqs, file, rank)
  | c :: rest, sqs, file, rank =>
    if c = '/' then
      fenScanSquares rest sqs 0 (rank - 1)
    else if c.isDigit then
      fenScanSquares rest sqs (file + ((c.toNat - '0'.toNat : Nat) : Int)) rank
    else do
      let piece_color := if c.isUpper then Piece.WHITE else Piece.BLACK
      let v := Piece.fromChar c + piece_color
      let sqs1 ← rustSet 64 sqs (rank * 8 + file) v
      fenScanSquares rest sqs1 (file + 1) rank

/-- Parse of a decimal numeral, the `str::parse::<usize>` /
`str::parse::<i32>` with `unwrap_or(0)` used by `PositionInfo::new`. -/
def parseNatD (s : String) : Nat :=
  if s.length ≠ 0 ∧ s.toList.all Char.isDigit then
    s.toList.foldl (fun acc c => acc * 10 + (c.toNat - '0'.toNat)) 0
  else 0

/-- Constructor `PositionInfo::new`: parses the six FEN fields.  The
en-passant file is stored as the 0-based index of the file letter
(`position(..)`), `0` when the field is absent or has no file letter. -/
def PositionInfo.new (fen : String) : Option PositionInfo := do
  let sections := strSplitChar fen ' '
  if sections.length < 3 then
    none
  else do
    let s0 ← vecGet sections 0
    let (sqs, _, _) ← fenScanSquares s0.toList (fun _ => 0) 0 7
    let s1 ← vecGet sections 1
    let white_to_move := s1 = "w"
    let s2 ← vecGet sections 2
    let wck := strContains s2 'K'
    let wcq := strContains s2 'Q'
    let bck := strContains s2 'k'
    let bcq := strContains s2 'q'
    let ep_file : Int :=
      if 3 < sections.length then
        match (sections.getD 3 "").toList.head? with
        | some c =>
          match (List.range 8).find? (fun i => FILE_NAMES.getD i 'a' = c) with
          | some i => (i : Int)
          | none => 0
        | none => 0
      else 0
    let halfmove_clock := if 4 < sections.length then parseNatD (sections.getD 4 "") else 0
    let move_count : Int := if 5 < sections.length then (parseNatD (sections.getD 5 "") : Int) else 0
    pure ⟨fen, sqs, wck, wcq, bck, bcq, ep_file, white_to_move, halfmove_clock, move_count⟩

/-- Function `position_from_fen`. -/
def position_from_fen (fen : String) : Option PositionInfo := PositionInfo.new fen

/- ### bitboard.rs -/

/-- Bitboard constant `FILE_A`. -/
def FILE_A : Nat := 0x101010101010101

/-- Bitboard constant `RANK_1`. -/
def RANK_1 : Nat := 0xFF

/-- Bitboard constant `RANK_4`. -/
def RANK_4 : Nat := RANK_1 <<< 24

/-- Bitboard constant `RANK_5`. -/
def RANK_5 : Nat := RANK_1 <<< 32

/-- Bitboard constant `RANK_8`. -/
def RANK_8 : Nat := RANK_1 <<< 56

/-- Bitboard constant `NOT_A_FILE`. -/
def NOT_A_FILE : Nat := not64 FILE_A

/-- Bitboard constant `NOT_H_FILE`. -/
def NOT_H_FILE : Nat := not64 (FILE_A <<< 7)

/-- Castling path mask `WHITE_KINGSIDE_MASK` (f1, g1). -/
def WHITE_KINGSIDE_MASK : Nat := (1 <<< 5) ||| (1 <<< 6)

/-- Castling path mask `BLACK_KINGSIDE_MASK` (f8, g8). -/
def BLACK_KINGSIDE_MASK : Nat := (1 <<< 61) ||| (1 <<< 62)

/-- Castling path mask `WHITE_QUEENSIDE_MASK2` (d1, c1). -/
def WHITE_QUEENSIDE_MASK2 : Nat := (1 <<< 3) ||| (1 <<< 2)

/-- Castling path mask `BLACK_QUEENSIDE_MASK2` (d8, c8). -/
def BLACK_QUEENSIDE_MASK2 : Nat := (1 <<< 59) ||| (1 <<< 58)

/-- Castling path mask `WHITE_QUEENSIDE_MASK` (d1, c1, b1). -/
def WHITE_QUEENSIDE_MASK : Nat := WHITE_QUEENSIDE_MASK2 ||| (1 <<< 1)

/-- Castling path mask `BLACK_QUEENSIDE_MASK` (d8, c8, b8). -/
def BLACK_QUEENSIDE_MASK : Nat := BLACK_QUEENSIDE_MASK2 ||| (1 <<< 57)

/-- Helper `BitBoard::valid_square_idx`. -/
def validSquareIdx (x y : Int) : Option Int :=
  let c := Coord.fromPair x y
  if c.is_valid_square then some c.index else none

/-- Orthogonal directions `ORTHO_DIR` of `bitboard.rs`. -/
def ORTHO_DIR : List (Int × Int) := [(-1, 0), (0, 1), (1, 0), (0, -1)]

/-- Diagonal directions `DIAG_DIR` of `bitboard.rs`. -/
def DIAG_DIR : List (Int × Int) := [(-1, -1), (-1, 1), (1, 1), (1, -1)]

/-- Knight jump offsets `KNIGHT_JUMPS` of `bitboard.rs`. -/
def KNIGHT_JUMPS : List (Int × Int) :=
  [(-2, -1), (-2, 1), (-1, 2), (1, 2), (2, 1), (2, -1), (1, -2), (-1, -2)]

/-- Per-square content of the `BitBoard::new` tables, produced exactly as
`BitBoard::process_square` computes them for the given square (the builder
loops over all squares; per square the result only depends on that
square).  Returns (knight_attacks, king_moves, white_pawn_attacks,
black_pawn_attacks); note the four pawn branches of the source all use the
offset `(x + 1, y + 1)`. -/
def processSquare (x y : Int) : Nat × Nat × Nat × Nat :=
  (List.range 4).foldl
    (fun acc dir_idx =>
      let (kn, kg, wp, bp) := acc
      let od := ORTHO_DIR.getD dir_idx (0, 0)
      let dd := DIAG_DIR.getD dir_idx (0, 0)
      let kg := (rustRange 1 8).foldl
        (fun kg dst =>
          let kg := match validSquareIdx (x + od.1 * dst) (y + od.2 * dst) with
            | some t => if dst = 1 then kg ||| shl64 1 t else kg
            | none => kg
          match validSquareIdx (x + dd.1 * dst) (y + dd.2 * dst) with
          | some t => if dst = 1 then kg ||| shl64 1 t else kg
          | none => kg) kg
      let kn := (List.range 8).foldl
        (fun kn i =>
          let j := KNIGHT_JUMPS.getD i (0, 0)
          match validSquareIdx (x + j.1) (y + j.2) with
          | some t => kn ||| shl64 1 t
          | none => kn) kn
      let wp := match validSquareIdx (x + 1) (y + 1) with
        | some t => wp ||| shl64 1 t
        | none => wp
      let wp := match validSquareIdx (x + 1) (y + 1) with
        | some t => wp ||| shl64 1 t
        | none => wp
      let bp := match validSquareIdx (x + 1) (y + 1) with
        | some t => bp ||| shl64 1 t
        | none => bp
      let bp := match validSquareIdx (x + 1) (y + 1) with
        | some t => bp ||| shl64 1 t
        | none => bp
      (kn, kg, wp, bp))
    (0, 0, 0, 0)

/-- Table `BitBoard::new().knight_attacks[sq]` (via `get_bb_utility`, whose
getter is not under `src/`; it is the usual once-cell around
`BitBoard::new`). -/
def bbKnightAttacks (sq : Nat) : Nat :=
  (processSquare (Coord.new sq).file_idx (Coord.new sq).rank_idx).1

/-- Table `BitBoard::new().king_moves[sq]`. -/
def bbKingMoves (sq : Nat) : Nat :=
  (processSquare (Coord.new sq).file_idx (Coord.new sq).rank_idx).2.1

/-- Table `BitBoard::new().white_pawn_attacks[sq]`. -/
def bbWhitePawnAttacks (sq : Nat) : Nat :=
  (processSquare (Coord.new sq).file_idx (Coord.new sq).rank_idx).2.2.1

/-- Table `BitBoard::new().black_pawn_attacks[sq]`. -/
def bbBlackPawnAttacks (sq : Nat) : Nat :=
  (processSquare (Coord.new sq).file_idx (Coord.new sq).rank_idx).2.2.2

/-- Helper `BitBoard::pop_lsb`: returns the trailing-zero count and clears
the lowest set bit (`*b &= *b - 1`). -/
def popLsb (b : Nat) : Nat × Nat :=
  (trailingZeros b, Nat.land b (b - 1))

/-- Helper `BitBoard::set_square`. -/
def bbSetSquare (bb : Nat) (sq : Int) : Nat := bb ||| shl64 1 sq

/-- Helper `BitBoard::toggle_square`. -/
def bbToggleSquare (bb : Nat) (sq : Int) : Nat := Nat.xor bb (shl64 1 sq)

/-- Helper `BitBoard::toggle_squares` (xor with the or-fold of the masks). -/
def bbToggleSquares (bb : Nat) (sqs : List Int) : Nat :=
  Nat.xor bb (sqs.foldl (fun acc sq => acc ||| shl64 1 sq) 0)

/-- Helper `BitBoard::contains_square` (`(bb >> sq) & 1 != 0`). -/
def bbContainsSquare (bb : Nat) (sq : Int) : Bool :=
  Nat.land (shr64 bb sq) 1 ≠ 0

/-- Helper `BitBoard::pawn_attacks`: parallel shift of the pawn set. -/
def bbPawnAttacks (pawn_bb : Nat) (is_white : Bool) : Nat :=
  if is_white then
    (Nat.land ((pawn_bb <<< 9) % U64MOD) NOT_A_FILE) |||
      (Nat.land ((pawn_bb <<< 7) % U64MOD) NOT_H_FILE)
  else
    (Nat.land (pawn_bb >>> 7) NOT_A_FILE) ||| (Nat.land (pawn_bb >>> 9) NOT_H_FILE)

/-- Helper `BitBoard::shift` (left for positive amounts, right for
negative). -/
def bbShift (bb : Nat) (n : Int) : Nat :=
  if 0 < n then shl64 bb n else shr64 bb (-n)

/- ### magic.rs -/

/-- Rook ray directions `ROOK_DIRECTIONS` of `board.rs`. -/
def ROOK_DIRECTIONS : List Coord := [⟨-1, 0⟩, ⟨1, 0⟩, ⟨0, 1⟩, ⟨0, -1⟩]

/-- Bishop ray directions `BISHOP_DIRECTIONS` of `board.rs`. -/
def BISHOP_DIRECTIONS : List Coord := [⟨-1, 1⟩, ⟨1, 1⟩, ⟨1, -1⟩, ⟨-1, -1⟩]

/-- Function `Magic::create_movement_mask`: the rays from the square with
the edge square of each direction excluded. -/
def create_movement_mask (square_idx : Int) (ortho : Bool) : Nat :=
  let directions := if ortho then ROOK_DIRECTIONS else BISHOP_DIRECTIONS
  let start_coord := Coord.new square_idx
  directions.foldl
    (fun mask dir =>
      ((rustRange 1 8).foldl
        (fun st dst =>
          let (mask, stopped) := st
          if stopped then (mask, true)
          else
            let coord := start_coord.add (dir.mul dst)
            let next_coord := start_coord.add (dir.mul (dst + 1))
            if next_coord.is_valid_square then (bbSetSquare mask coord.index, false)
            else (mask, true))
        (mask, false)).1)
    0

/-- Function `Magic::legal_move_bb`: ray walk stopping at (and including)
the first blocker. -/
def legal_move_bb (start_square : Int) (blocker_bb : Nat) (ortho : Bool) : Nat :=
  let directions := if ortho then ROOK_DIRECTIONS else BISHOP_DIRECTIONS
  let start_coord := Coord.new start_square
  directions.foldl
    (fun bb dir =>
      ((rustRange 1 8).foldl
        (fun st dst =>
          let (bb, stopped) := st
          if stopped then (bb, true)
          else
            let coord := start_coord.add (dir.mul dst)
            if coord.is_valid_square then
              let bb := bbSetSquare bb coord.index
              if bbContainsSquare blocker_bb coord.index then (bb, true) else (bb, false)
            else (bb, true))
        (bb, false)).1)
    0

/-- Modelled from the spec: `Magic::get_rook_attacks`.  The source computes
`rook_attacks[square][((blockers & mask) * magic) >> shift]` with the
constants of `utils::precomputed_magics`, a module not present under
`src/`; §4.1 of the spec defines the table so that this lookup returns the
true attack set of the masked blockers, which is `legal_move_bb` of
`blockers & mask` (the construction in `Magic::create_table` stores
exactly that at every reachable index). -/
def get_rook_attacks (square : Int) (blockers : Nat) : Nat :=
  legal_move_bb square (Nat.land blockers (create_movement_mask square true)) true

/-- Modelled from the spec: `Magic::get_bishop_attacks`, as for
`get_rook_attacks`. -/
def get_bishop_attacks (square : Int) (blockers : Nat) : Nat :=
  legal_move_bb square (Nat.land blockers (create_movement_mask square false)) false

/-- Method `Magic::get_slider_attacks`. -/
def get_slider_attacks (square : Int) (blockers : Nat) (ortho : Bool) : Nat :=
  if ortho then get_rook_attacks square blockers else get_bishop_attacks square blockers

/- ### move_generator.rs precomputed data -/

/-- Direction offsets `DIRECTION_OFFSETS` (N, S, W, E, NW, SE, NE, SW). -/
def DIRECTION_OFFSETS : List Int := [8, -8, -1, 1, 7, -7, 9, -9]

/-- Direction offsets `DIR_OFFSETS_2D` of `move_generator.rs`. -/
def DIR_OFFSETS_2D : List Coord :=
  [⟨0, 1⟩, ⟨0, -1⟩, ⟨-1, 0⟩, ⟨1, 0⟩, ⟨-1, 1⟩, ⟨1, -1⟩, ⟨1, 1⟩, ⟨-1, -1⟩]

/-- Table `PrecomputedMoveData::num_squares_to_edge[sq][dir]`, computed as
in `PrecomputedMoveData::new`, including its `x = square_idx - y + 8`
(instead of `y * 8`) computation of the file. -/
def pmdNumSquaresToEdge (square_idx : Int) (dir : Nat) : Int :=
  let y := square_idx / 8
  let x := square_idx - y + 8
  let north := 7 - y
  let south := y
  let west := x
  let east := 7 - x
  match dir with
  | 0 => north
  | 1 => south
  | 2 => west
  | 3 => east
  | 4 => min north west
  | 5 => min south east
  | 6 => min north east
  | _ => min south west

/-- Table `PrecomputedMoveData::align_mask[a][b]`: bits of
`Coord::new(a) + dir * i` for `i` in `-8..8` with `dir` the coordinate
sign of `a - b`. -/
def pmdAlignMask (a b : Int) : Nat :=
  let coord_a := Coord.new a
  let coord_b := Coord.new b
  let delta := coord_a.sub coord_b
  let dir := Coord.fromPair delta.file_idx.sign delta.rank_idx.sign
  (rustRange (-8) 8).foldl
    (fun mask i =>
      let coord := (Coord.new a).add (dir.mul i)
      if coord.is_valid_square then bbSetSquare mask coord.index else mask)
    0

/-- Table `PrecomputedMoveData::dir_ray_mask[dir][sq]`: squares along the
direction until the board edge (the loop breaks at the first invalid
coordinate). -/
def pmdDirRayMask (dir : Nat) (square_idx : Int) : Nat :=
  let off := DIR_OFFSETS_2D.getD dir ⟨0, 0⟩
  ((rustRange 0 8).foldl
    (fun st i =>
      let (mask, stopped) := st
      if stopped then (mask, true)
      else
        let coord := (Coord.new square_idx).add (off.mul i)
        if coord.is_valid_square then (bbSetSquare mask coord.index, false)
        else (mask, true))
    (0, false)).1

/- ### board.rs -/

/-- Board state from `board.rs`.  Array fields are embedded as functions;
the two `VecDeque` histories are lists with `push_back` appending at the
end.  The `rooks`/`bishops`/`queens`/`knights`/`pawns` lists are the
separate `PieceList` copies made in `Board::new`; as in the source they
are never updated after construction (only `all_piece_lists` is). -/
structure Board where
  squares : Nat → Int
  king_squares : Nat → Int
  piece_bbs : Nat → Nat
  color_bbs : Nat → Nat
  all_piece_bb : Nat
  friendly_ortho_slider_bb : Nat
  friendly_diag_slider_bb : Nat
  enemy_ortho_slider_bb : Nat
  enemy_diag_slider_bb : Nat
  total_heavy_material : Nat
  rooks : Nat → PieceList
  bishops : Nat → PieceList
  queens : Nat → PieceList
  knights : Nat → PieceList
  pawns : Nat → PieceList
  white_to_move : Bool
  repetition_history : List Nat
  ply_count : Int
  state : State
  all_moves : List Move
  all_piece_lists : Nat → PieceList
  game_state_history : List State
  start_pos_info : PositionInfo
  cached_in_check_value : Bool
  has_cached_in_check_value : Bool

/-- Constructor `Board::new`. -/
def Board.new : Board where
  squares := fun _ => 0
  king_squares := fun _ => 0
  piece_bbs := fun _ => 0
  color_bbs := fun _ => 0
  all_piece_bb := 0
  friendly_ortho_slider_bb := 0
  friendly_diag_slider_bb := 0
  enemy_ortho_slider_bb := 0
  enemy_diag_slider_bb := 0
  total_heavy_material := 0
  rooks := fun _ => PieceList.new
  bishops := fun _ => PieceList.new
  queens := fun _ => PieceList.new
  knights := fun _ => PieceList.new
  pawns := fun _ => PieceList.new
  white_to_move := true
  repetition_history := []
  ply_count := 0
  state := State.default
  all_moves := []
  all_piece_lists := fun _ => PieceList.new
  game_state_history := []
  start_pos_info := PositionInfo.default
  cached_in_check_value := false
  has_cached_in_check_value := false

/-- Method `Board::move_color` as the color index (White = 0, Black = 1). -/
def Board.move_color (b : Board) : Nat := if b.white_to_move then 0 else 1

/-- Method `Board::opponent_color` as the color index. -/
def Board.opponent_color (b : Board) : Nat := if b.white_to_move then 1 else 0

/-- Method `Color::to_piece_color` (White = 0, Black = 8). -/
def colorToPieceColor (c : Nat) : Int := if c = 0 then Piece.WHITE else Piece.BLACK

/-- Method `Zobrist::key`: from-scratch key recomputation; the source XORs
only the (piece, square) keys of the occupied squares. -/
def Zobrist.keyOf (z : Zobrist) (squares : Nat → Int) : Nat :=
  (List.range 64).foldl
    (fun key sq =>
      let p := squares sq
      if Piece.get_type p ≠ Piece.NONE then Nat.xor key (z.pieces_array (toU32 p) sq) else key)
    0

/-- Method `Board::update_slider_bbs`. -/
def Board.update_slider_bbs (b : Board) : Option Board := do
  let mc := colorToPieceColor b.move_color
  let fr ← rustGet 15 b.piece_bbs (Piece.fromTypeColor Piece.ROOK mc)
  let fq ← rustGet 15 b.piece_bbs (Piece.fromTypeColor Piece.QUEEN mc)
  let fb ← rustGet 15 b.piece_bbs (Piece.fromTypeColor Piece.BISHOP mc)
  let oc := colorToPieceColor b.opponent_color
  let er ← rustGet 15 b.piece_bbs (Piece.fromTypeColor Piece.ROOK oc)
  let eq ← rustGet 15 b.piece_bbs (Piece.fromTypeColor Piece.QUEEN oc)
  let eb ← rustGet 15 b.piece_bbs (Piece.fromTypeColor Piece.BISHOP oc)
  pure { b with
    friendly_ortho_slider_bb := fr ||| fq
    friendly_diag_slider_bb := fb ||| fq
    enemy_ortho_slider_bb := er ||| eq
    enemy_diag_slider_bb := eb ||| eq }

/-- Method `Board::move_piece` (raw move of a piece between two squares on
bitboards, piece list and mailbox). -/
def Board.move_piece_fn (b : Board) (piece start_square target_square : Int) :
    Option Board := do
  let move_color := b.move_color
  let pbb ← rustGet 15 b.piece_bbs piece
  let pbbs ← rustSet 15 b.piece_bbs piece (bbToggleSquares pbb [start_square, target_square])
  let cbb ← rustGetN 2 b.color_bbs move_color
  let cbbs ← rustSetN 2 b.color_bbs move_color
    (bbToggleSquares cbb [start_square, target_square])
  let pl ← rustGet 15 b.all_piece_lists piece
  let pl1 ← pl.move_piece start_square target_square
  let apls ← rustSet 15 b.all_piece_lists piece pl1
  let sq1 ← rustSet 64 b.squares start_square Piece.NONE
  let sq2 ← rustSet 64 sq1 target_square piece
  pure { b with piece_bbs := pbbs, color_bbs := cbbs, all_piece_lists := apls, squares := sq2 }

/-- Capture section of `Board::make_move` (the branch under
`if captured_piece_type != piece::NONE`); returns the updated board and
Zobrist key. -/
def Board.makeMoveCaptures (b : Board) (is_ep : Bool) (target_square : Int)
    (captured_piece captured_piece_type : Int) (opponent_color : Nat)
    (new_zobrist_key : Nat) : Option (Board × Nat) :=
  if captured_piece_type ≠ Piece.NONE then do
    let cs0 := target_square
    let pr ←
      if is_ep then do
        let cs := target_square + (if b.white_to_move then -8 else 8)
        let sqs ← rustSet 64 b.squares cs Piece.NONE
        pure ({ b with squares := sqs }, cs)
      else pure (b, cs0)
    let b := pr.1
    let capture_square := pr.2
    let b := if captured_piece_type ≠ Piece.NONE then
        { b with total_heavy_material := usizeSub b.total_heavy_material 1 }
      else b
    let cl ← rustGet 15 b.all_piece_lists captured_piece
    let cl1 ← cl.remove_piece capture_square
    let apls ← rustSet 15 b.all_piece_lists captured_piece cl1
    let pbb ← rustGet 15 b.piece_bbs captured_piece
    let pbbs ← rustSet 15 b.piece_bbs captured_piece (bbToggleSquare pbb capture_square)
    let cbb ← rustGetN 2 b.color_bbs opponent_color
    let cbbs ← rustSetN 2 b.color_bbs opponent_color (bbToggleSquare cbb capture_square)
    let k := Nat.xor new_zobrist_key
      (b.state.zobrist.pieces_array (toU32 captured_piece) (toU32 capture_square % 64))
    pure ({ b with all_piece_lists := apls, piece_bbs := pbbs, color_bbs := cbbs }, k)
  else pure (b, new_zobrist_key)

/-- King section of `Board::make_move` (king-square update, castling-rights
mask, rook relocation on a castle move); returns the updated board, the
new castling rights and the Zobrist key. -/
def Board.makeMoveKing (b : Board) (moved_piece_type move_flag target_square : Int)
    (move_color : Nat) (new_castling_rights : Int) (new_zobrist_key : Nat) :
    Option (Board × Int × Nat) :=
  if moved_piece_type = Piece.KING then do
    let ks ← rustSetN 2 b.king_squares move_color target_square
    let b := { b with king_squares := ks }
    let ncr : Int :=
      ((Nat.land (toU32 new_castling_rights) (if b.white_to_move then 12 else 3) : Nat) : Int)
    if move_flag = CASTLE_FLAG then do
      let rook_piece := Piece.fromTypeColor Piece.ROOK (colorToPieceColor move_color)
      let king_side := target_square = 6 ∨ target_square = 62
      let castling_rook_from_idx :=
        if king_side then target_square + 1 else target_square - 2
      let castling_rook_to_idx :=
        if king_side then target_square - 1 else target_square + 1
      let pbb ← rustGet 15 b.piece_bbs rook_piece
      let pbbs ← rustSet 15 b.piece_bbs rook_piece
        (bbToggleSquares pbb [castling_rook_from_idx, castling_rook_to_idx])
      let cbb ← rustGetN 2 b.color_bbs move_color
      let cbbs ← rustSetN 2 b.color_bbs move_color
        (bbToggleSquares cbb [castling_rook_from_idx, castling_rook_to_idx])
      let rl ← rustGet 15 b.all_piece_lists rook_piece
      let rl1 ← rl.move_piece castling_rook_from_idx castling_rook_to_idx
      let apls ← rustSet 15 b.all_piece_lists rook_piece rl1
      let sq1 ← rustSet 64 b.squares castling_rook_from_idx Piece.NONE
      let sq2 ← rustSet 64 sq1 castling_rook_to_idx
        (Piece.ROOK + colorToPieceColor move_color)
      let k := Nat.xor new_zobrist_key
        (b.state.zobrist.pieces_array (toU32 rook_piece) (toU32 castling_rook_from_idx % 64))
      let k := Nat.xor k
        (b.state.zobrist.pieces_array (toU32 rook_piece) (toU32 castling_rook_to_idx % 64))
      pure ({ b with piece_bbs := pbbs, color_bbs := cbbs, all_piece_lists := apls,
                     squares := sq2 }, ncr, k)
    else pure (b, ncr, new_zobrist_key)
  else pure (b, new_castling_rights, new_zobrist_key)

/-- Promotion section of `Board::make_move`. -/
def Board.makeMovePromotion (b : Board) (is_promotion : Bool)
    (move_flag target_square moved_piece : Int) (move_color : Nat) : Option Board :=
  if is_promotion then do
    let b := { b with total_heavy_material := (b.total_heavy_material + 1) % U64MOD }
    let promotion_type :=
      if move_flag = PROMOTE_TO_QUEEN_FLAG then Piece.QUEEN
      else if move_flag = PROMOTE_TO_ROOK_FLAG then Piece.ROOK
      else if move_flag = PROMOTE_TO_KNIGHT_FLAG then Piece.KNIGHT
      else if move_flag = PROMOTE_TO_BISHOP_FLAG then Piece.BISHOP
      else 0
    let promotion_piece := Piece.fromTypeColor promotion_type (colorToPieceColor move_color)
    let mbb ← rustGet 15 b.piece_bbs moved_piece
    let pbbs1 ← rustSet 15 b.piece_bbs moved_piece (bbToggleSquare mbb target_square)
    let qbb ← rustGet 15 pbbs1 promotion_piece
    let pbbs2 ← rustSet 15 pbbs1 promotion_piece (bbToggleSquare qbb target_square)
    let ml ← rustGet 15 b.all_piece_lists moved_piece
    let ml1 ← ml.remove_piece target_square
    let apls1 ← rustSet 15 b.all_piece_lists moved_piece ml1
    let ql ← rustGet 15 apls1 promotion_piece
    let ql1 ← ql.add_piece target_square
    let apls2 ← rustSet 15 apls1 promotion_piece ql1
    let sqs ← rustSet 64 b.squares target_square promotion_piece
    pure { b with piece_bbs := pbbs2, all_piece_lists := apls2, squares := sqs }
  else pure b

/-- Castling-rights clearing section of `Board::make_move` (rook squares
touched as origin or destination). -/
def makeMoveClearRights (prev_castle_state new_castling_rights start_square
    target_square : Int) : Int :=
  if prev_castle_state ≠ 0 then
    let ncr := new_castling_rights
    let ncr : Int :=
      if target_square = 7 ∨ start_square = 7 then
        ((Nat.land (toU32 ncr) (toU32 CLEAR_WHITE_KINGSIDE_MASK) : Nat) : Int)
      else if target_square = 0 ∨ start_square = 0 then
        ((Nat.land (toU32 ncr) (toU32 CLEAR_WHITE_QUEENSIDE_MASK) : Nat) : Int)
      else ncr
    let ncr : Int :=
      if target_square = 63 ∨ start_square = 63 then
        ((Nat.land (toU32 ncr) (toU32 CLEAR_BLACK_KINGSIDE_MASK) : Nat) : Int)
      else if target_square = 56 ∨ start_square = 56 then
        ((Nat.land (toU32 ncr) (toU32 CLEAR_BLACK_QUEENSIDE_MASK) : Nat) : Int)
      else ncr
    ncr
  else new_castling_rights

/-- Final section of `Board::make_move`: side flip, ply count, halfmove
clock, slider bitboards, state snapshot push.  As in the source only
`state.zobrist.key` is updated in place; the full new snapshot is only
pushed onto `game_state_history`. -/
def Board.makeMoveFinish (b : Board) (mv : Move) (in_search : Bool)
    (moved_piece_type captured_piece_type new_ep_file new_castling_rights : Int)
    (new_zobrist_key : Nat) : Option Board := do
  let b := { b with white_to_move := ¬b.white_to_move, ply_count := b.ply_count + 1 }
  let new_halfmove_clock := b.state.halfmove_clock + 1
  let b := { b with all_piece_bb := b.color_bbs 0 ||| b.color_bbs 1 }
  let b ← b.update_slider_bbs
  let reset := moved_piece_type = Piece.PAWN ∨ captured_piece_type ≠ Piece.NONE
  let b := if reset ∧ in_search then { b with repetition_history := [] } else b
  let new_halfmove_clock := if reset then (0 : Int) else new_halfmove_clock
  let z := { b.state.zobrist with key := new_zobrist_key }
  let b := { b with state := { b.state with zobrist := z } }
  let new_state := State.new captured_piece_type new_ep_file new_castling_rights
    new_halfmove_clock z
  let b := { b with game_state_history := b.game_state_history ++ [new_state],
                    has_cached_in_check_value := false }
  let b :=
    if ¬in_search then
      { b with repetition_history := b.repetition_history ++ [new_state.zobrist.key],
               all_moves := b.all_moves ++ [mv] }
    else b
  pure b

/-- Method `Board::make_move`, transcribed step for step from `board.rs`
through the section helpers above. -/
def Board.make_move (b : Board) (mv : Move) (in_search : Bool) : Option Board := do
  let move_color := b.move_color
  let opponent_color := b.opponent_color
  let start_square := mv.start_square
  let target_square := mv.target_square
  let move_flag := mv.move_flag
  let is_promotion := mv.is_promotion
  let is_ep := move_flag = EN_PASSANT_CAPTURE_FLAG
  let moved_piece ← rustGet 64 b.squares start_square
  let moved_piece_type := Piece.get_type moved_piece
  let captured_piece ← if is_ep then
      pure (Piece.fromTypeColor Piece.PAWN (colorToPieceColor opponent_color))
    else rustGet 64 b.squares target_square
  let captured_piece_type := Piece.get_type captured_piece
  let prev_castle_state := b.state.castling_rights
  let prev_en_passant_file := b.state.en_passant_file
  let b ← b.move_piece_fn moved_piece start_square target_square
  let pr ← b.makeMoveCaptures is_ep target_square captured_piece captured_piece_type
    opponent_color b.state.zobrist.key
  let b := pr.1
  let kr ← b.makeMoveKing moved_piece_type move_flag target_square move_color
    prev_castle_state pr.2
  let b := kr.1
  let b ← b.makeMovePromotion is_promotion move_flag target_square moved_piece move_color
  let epr :=
    if move_flag = PAWN_TWO_UP_FLAG then
      let file := Coord.file_of_square start_square + 1
      (file, Nat.xor kr.2.2 (b.state.zobrist.en_passant_file (toU32 file % 16)))
    else ((0 : Int), kr.2.2)
  let new_ep_file := epr.1
  let new_castling_rights :=
    makeMoveClearRights prev_castle_state kr.2.1 start_square target_square
  let k := Nat.xor epr.2 b.state.zobrist.side_to_move
  let k := Nat.xor k (b.state.zobrist.pieces_array (toU32 moved_piece) (toU32 start_square % 64))
  let tgt ← rustGet 64 b.squares target_square
  let k := Nat.xor k (b.state.zobrist.pieces_array (toU32 tgt) (toU32 target_square % 64))
  let k := Nat.xor k (b.state.zobrist.en_passant_file (toU32 prev_en_passant_file % 16))
  let k :=
    if new_castling_rights ≠ prev_castle_state then
      Nat.xor (Nat.xor k (b.state.zobrist.castling_rights (toU32 prev_castle_state % 16)))
        (b.state.zobrist.castling_rights (toU32 new_castling_rights % 16))
    else k
  b.makeMoveFinish mv in_search moved_piece_type captured_piece_type new_ep_file
    new_castling_rights k

/-- Promotion-undo section of `Board::unmake_move`. -/
def Board.unmakePromotion (b : Board) (undoing_promotion : Bool)
    (moved_to moved_piece : Int) (move_color : Nat) : Option Board :=
  if undoing_promotion then do
    let promoted_piece ← rustGet 64 b.squares moved_to
    let pawn_piece := Piece.fromTypeColor Piece.PAWN (colorToPieceColor move_color)
    let b := { b with total_heavy_material := usizeSub b.total_heavy_material 1 }
    let ppl ← rustGet 15 b.all_piece_lists promoted_piece
    let ppl1 ← ppl.remove_piece moved_to
    let apls1 ← rustSet 15 b.all_piece_lists promoted_piece ppl1
    let mpl ← rustGet 15 apls1 moved_piece
    let mpl1 ← mpl.add_piece moved_to
    let apls2 ← rustSet 15 apls1 moved_piece mpl1
    let pbb ← rustGet 15 b.piece_bbs promoted_piece
    let pbbs1 ← rustSet 15 b.piece_bbs promoted_piece (bbToggleSquare pbb moved_to)
    let wbb ← rustGet 15 pbbs1 pawn_piece
    let pbbs2 ← rustSet 15 pbbs1 pawn_piece (bbToggleSquare wbb moved_to)
    pure { b with all_piece_lists := apls2, piece_bbs := pbbs2 }
  else pure b

/-- Capture-undo section of `Board::unmake_move`.  Note the mailbox
restore of the source writes `squares[captured_piece.value]` (the piece
code used as the index) rather than `squares[capture_square]`. -/
def Board.unmakeCapture (b : Board) (undoing_capture undoing_ep undoing_white : Bool)
    (moved_to captured_piece_type : Int) (opponent_color : Nat) : Option Board :=
  if undoing_capture then do
    let captured_piece :=
      Piece.fromTypeColor captured_piece_type (colorToPieceColor opponent_color)
    let capture_square :=
      if undoing_ep then moved_to + (if undoing_white then -8 else 8) else moved_to
    let b :=
      if captured_piece_type ≠ Piece.PAWN then
        { b with total_heavy_material := (b.total_heavy_material + 1) % U64MOD }
      else b
    let pbb ← rustGet 15 b.piece_bbs captured_piece
    let pbbs ← rustSet 15 b.piece_bbs captured_piece (bbToggleSquare pbb capture_square)
    let cbb ← rustGetN 2 b.color_bbs opponent_color
    let cbbs ← rustSetN 2 b.color_bbs opponent_color (bbToggleSquare cbb capture_square)
    let cl ← rustGet 15 b.all_piece_lists captured_piece
    let cl1 ← cl.add_piece capture_square
    let apls ← rustSet 15 b.all_piece_lists captured_piece cl1
    let sqs ← rustSet 64 b.squares captured_piece captured_piece
    pure { b with piece_bbs := pbbs, color_bbs := cbbs, all_piece_lists := apls,
                  squares := sqs }
  else pure b

/-- King-undo section of `Board::unmake_move` (king square restore and
rook relocation of a castle move). -/
def Board.unmakeKing (b : Board) (moved_piece_type move_flag moved_from moved_to : Int)
    (move_color : Nat) : Option Board :=
  if moved_piece_type = Piece.KING then do
    let ks ← rustSetN 2 b.king_squares move_color moved_from
    let b := { b with king_squares := ks }
    if move_flag = CASTLE_FLAG then do
      let rook_piece := Piece.fromTypeColor Piece.ROOK (colorToPieceColor move_color)
      let kingside := moved_to = 6 ∨ moved_to = 62
      let rook_square_before_castle := if kingside then moved_to + 1 else moved_to - 2
      let rook_square_after_castle := if kingside then moved_to - 1 else moved_to + 1
      let pbb ← rustGet 15 b.piece_bbs rook_piece
      let pbbs ← rustSet 15 b.piece_bbs rook_piece
        (bbToggleSquares pbb [rook_square_after_castle, rook_square_before_castle])
      let cbb ← rustGetN 2 b.color_bbs move_color
      let cbbs ← rustSetN 2 b.color_bbs move_color
        (bbToggleSquares cbb [rook_square_after_castle, rook_square_before_castle])
      let sq1 ← rustSet 64 b.squares rook_square_after_castle Piece.NONE
      let sq2 ← rustSet 64 sq1 rook_square_before_castle rook_piece
      let rl ← rustGet 15 b.all_piece_lists rook_piece
      let rl1 ← rl.move_piece rook_square_after_castle rook_square_before_castle
      let apls ← rustSet 15 b.all_piece_lists rook_piece rl1
      pure { b with piece_bbs := pbbs, color_bbs := cbbs, squares := sq2,
                    all_piece_lists := apls }
    else pure b
  else pure b

/-- Method `Board::unmake_move`, transcribed step for step from `board.rs`
through the section helpers above. -/
def Board.unmake_move (b : Board) (mv : Move) (in_search : Bool) : Option Board := do
  let b := { b with white_to_move := ¬b.white_to_move }
  let undoing_white := b.white_to_move
  let moved_from := mv.start_square
  let moved_to := mv.target_square
  let move_flag := mv.move_flag
  let undoing_ep := move_flag = EN_PASSANT_CAPTURE_FLAG
  let undoing_promotion := mv.is_promotion
  let undoing_capture := b.state.captured_piece_type ≠ Piece.NONE
  let move_color := b.move_color
  let opponent_color := b.opponent_color
  let moved_piece ←
    if undoing_promotion then
      pure (Piece.fromTypeColor Piece.PAWN (colorToPieceColor move_color))
    else rustGet 64 b.squares moved_to
  let moved_piece_type := Piece.get_type moved_piece
  let captured_piece_type := b.state.captured_piece_type
  let b ← b.unmakePromotion undoing_promotion moved_to moved_piece move_color
  let b ← b.move_piece_fn moved_piece moved_to moved_from
  let b ← b.unmakeCapture undoing_capture undoing_ep undoing_white moved_to
    captured_piece_type opponent_color
  let b ← b.unmakeKing moved_piece_type move_flag moved_from moved_to move_color
  let b := { b with all_piece_bb := b.color_bbs 0 ||| b.color_bbs 1 }
  let b ← b.update_slider_bbs
  let b :=
    if ¬in_search ∧ 0 < b.repetition_history.length then
      { b with repetition_history := b.repetition_history.dropLast }
    else b
  let b := if ¬in_search then { b with all_moves := b.all_moves.dropLast } else b
  let b := { b with game_state_history := b.game_state_history.dropLast }
  let b := { b with state := b.game_state_history.getLastD State.default }
  pure { b with ply_count := b.ply_count - 1, has_cached_in_check_value := false }

/-- Method `Board::make_null_move`. -/
def Board.make_null_move (b : Board) : Option Board := do
  let b := { b with white_to_move := ¬b.white_to_move, ply_count := b.ply_count + 1 }
  let k := Nat.xor b.state.zobrist.key b.state.zobrist.side_to_move
  let k := Nat.xor k (b.state.zobrist.en_passant_file (toU32 b.state.en_passant_file % 16))
  let z := { b.state.zobrist with key := k }
  let b := { b with state := { b.state with zobrist := z } }
  let new_state := State.new Piece.NONE 0 b.state.castling_rights
    (b.state.halfmove_clock + 1) z
  let b := { b with state := new_state,
                    game_state_history := b.game_state_history ++ [new_state] }
  let b ← b.update_slider_bbs
  pure { b with has_cached_in_check_value := true, cached_in_check_value := false }

/-- Method `Board::unmake_null_move`. -/
def Board.unmake_null_move (b : Board) : Option Board := do
  let b := { b with white_to_move := ¬b.white_to_move, ply_count := b.ply_count - 1 }
  let b := { b with game_state_history := b.game_state_history.dropLast }
  let b := { b with state := b.game_state_history.getLastD State.default }
  let b ← b.update_slider_bbs
  pure { b with has_cached_in_check_value := true, cached_in_check_value := false }

/-- Method `Board::calculate_in_check_state`: `todo!()` in the source, so
any call panics. -/
def Board.calculate_in_check_state (_b : Board) : Option Bool := none

/-- Method `Board::is_in_check` (returns the cached value or panics in
`calculate_in_check_state`). -/
def Board.is_in_check (b : Board) : Option (Bool × Board) :=
  if b.has_cached_in_check_value then some (b.cached_in_check_value, b)
  else do
    let v ← b.calculate_in_check_state
    pure (v, { b with cached_in_check_value := v, has_cached_in_check_value := true })

/-- Method `Board::load_from_position`. -/
def Board.load_from_position (position : PositionInfo) : Option Board := do
  let b := Board.new
  let b ← (List.range 64).foldlM
    (fun (b : Board) square_idx => do
      let square := position.squares square_idx
      let piece_type := Piece.get_type square
      let color_idx : Nat := if Piece.is_white square then 0 else 1
      let sqs ← rustSetN 64 b.squares square_idx square
      let b := { b with squares := sqs }
      if piece_type ≠ Piece.NONE then do
        let pbb ← rustGet 15 b.piece_bbs square
        let pbbs ← rustSet 15 b.piece_bbs square (bbSetSquare pbb (square_idx : Int))
        let cbb ← rustGetN 2 b.color_bbs color_idx
        let cbbs ← rustSetN 2 b.color_bbs color_idx (bbSetSquare cbb (square_idx : Int))
        let b := { b with piece_bbs := pbbs, color_bbs := cbbs }
        let b ←
          if piece_type = Piece.KING then do
            let ks ← rustSetN 2 b.king_squares color_idx (square_idx : Int)
            pure { b with king_squares := ks }
          else do
            let pl ← rustGet 15 b.all_piece_lists square
            let pl1 ← pl.add_piece (square_idx : Int)
            let apls ← rustSet 15 b.all_piece_lists square pl1
            pure { b with all_piece_lists := apls }
        let b :=
          if piece_type = Piece.PAWN ∨ piece_type = Piece.KING then b
          else { b with total_heavy_material := (b.total_heavy_material + 1) % U64MOD }
        pure b
      else pure b)
    b
  let b ← b.update_slider_bbs
  let white_castle : Int :=
    (if position.white_castle_kingside then 1 else 0) +
      (if position.white_castle_queenside then 2 else 0)
  let black_castle : Int :=
    (if position.black_castle_kingside then 4 else 0) +
      (if position.black_castle_queenside then 8 else 0)
  let castling_rights := white_castle + black_castle
  -- Note: the source computes ply_count before white_to_move is assigned
  -- below, so it still sees the default (White to move).
  let loaded_ply := (position.move_count - 1) * 2 + (if b.white_to_move then 0 else 1)
  let b := { b with ply_count := loaded_ply }
  let st0 := State.new Piece.NONE position.ep_file castling_rights
    (position.halfmove_clock : Int) Zobrist.default
  let b := { b with state := st0 }
  let z := { Zobrist.new with key := Zobrist.new.keyOf b.squares }
  let st1 := State.new Piece.NONE position.ep_file castling_rights
    (position.halfmove_clock : Int) z
  let b := { b with state := st1 }
  let b := { b with repetition_history := b.repetition_history ++ [z.key] }
  let b := { b with game_state_history := b.game_state_history ++ [b.state] }
  let b := { b with all_piece_bb := b.color_bbs 0 ||| b.color_bbs 1 }
  pure { b with white_to_move := position.white_to_move, start_pos_info := position }

/-- Method `Board::load_from_fen`. -/
def Board.load_from_fen (fen : String) : Option Board := do
  let position ← position_from_fen fen
  Board.load_from_position position

/-- Method `Board::board_from_fen`. -/
def board_from_fen (fen : String) : Option Board := Board.load_from_fen fen

/-- Observable projection of the mailbox array as a list, for byte-compare
style equality of positions. -/
def Board.squaresList (b : Board) : List Int := (List.range 64).map b.squares

/- ### move_generator.rs -/

/-- Maximum move count `MAX_MOVES`. -/
def MAX_MOVES : Nat := 218

/-- Promotion generation mode from `move_generator.rs`. -/
inductive PromotionMode where
  | All
  | Queen
  | QueenAndKnight
deriving DecidableEq

/-- Set-bit indices of a bitboard in the order `pop_lsb` yields them
(ascending); the `while bb != 0` loops of the generator iterate exactly
this sequence. -/
def bbToList (bb : Nat) : List Nat :=
  ((List.range 64).foldl
    (fun st _ =>
      let (acc, bb) := st
      if bb = 0 then st
      else
        let p := popLsb bb
        (acc ++ [p.1], p.2))
    (([] : List Nat), bb)).1

/-- Move generator state from `move_generator.rs`. -/
structure MoveGenerator where
  promotions_to_generate : PromotionMode
  white_to_move : Bool
  friendly_king_square : Int
  friendly_index : Int
  enemy_index : Int
  in_check : Bool
  in_double_check : Bool
  check_ray_bitboard : Nat
  pin_rays : Nat
  not_pin_rays : Nat
  opponent_attack_map_no_pawns : Nat
  opponent_attack_map : Nat
  opponent_pawn_attack_map : Nat
  opponent_sliding_attack_map : Nat
  generate_quiet_moves : Bool
  current_move_index : Nat
  enemy_pieces : Nat
  friendly_pieces : Nat
  all_pieces : Nat
  empty_squares : Nat
  empty_or_enemy_squares : Nat
  move_type_mask : Nat

/-- Constructor `MoveGenerator::default`. -/
def MoveGenerator.default : MoveGenerator :=
  ⟨PromotionMode.All, false, 0, 0, 0, false, false, 0, 0, 0, 0, 0, 0, 0, false, 0, 0, 0, 0, 0, 0, 0⟩

/-- Helper `MoveGenerator::is_pinned`. -/
def MoveGenerator.is_pinned (mg : MoveGenerator) (square : Int) : Bool :=
  Nat.land (shr64 mg.pin_rays square) 1 ≠ 0

/-- Helper `MoveGenerator::update_slide_attack`: accumulates the slider
attack map while consuming the passed `&mut` bitboard with `pop_lsb`, so
the referenced board field (an enemy slider bitboard) ends up zero. -/
def MoveGenerator.update_slide_attack (mg : MoveGenerator) (all_piece_bb piece_bb : Nat)
    (ortho : Bool) : MoveGenerator × Nat :=
  let blockers := Nat.land all_piece_bb (not64 (shl64 1 mg.friendly_king_square))
  let m := (bbToList piece_bb).foldl
    (fun acc start_square =>
      acc ||| get_slider_attacks (start_square : Int) blockers ortho)
    mg.opponent_sliding_attack_map
  ({ mg with opponent_sliding_attack_map := m }, 0)

/-- Helper `MoveGenerator::generate_sliding_attack_map`: resets the map and
runs `update_slide_attack` over both enemy slider bitboards, zeroing them
on the board. -/
def MoveGenerator.generate_sliding_attack_map (mg : MoveGenerator) (b : Board) :
    MoveGenerator × Board :=
  let mg := { mg with opponent_sliding_attack_map := 0 }
  let (mg, z1) := mg.update_slide_attack b.all_piece_bb b.enemy_ortho_slider_bb true
  let b := { b with enemy_ortho_slider_bb := z1 }
  let (mg, z2) := mg.update_slide_attack b.all_piece_bb b.enemy_diag_slider_bb false
  ({ mg with opponent_sliding_attack_map := mg.opponent_sliding_attack_map },
    { b with enemy_diag_slider_bb := z2 })

/-- Ray walk of the check/pin scan of `MoveGenerator::calculate_attack_map`
for one direction: returns the updated (pin_rays, check_ray_bitboard,
in_check, in_double_check). -/
def MoveGenerator.scanRay (mg : MoveGenerator) (b : Board) (dir : Nat) :
    Option (Nat × Nat × Bool × Bool) := do
  let is_diagonal := 3 < dir
  let n := pmdNumSquaresToEdge mg.friendly_king_square dir
  let direction_offset := DIRECTION_OFFSETS.getD dir 0
  let init : Nat × Nat × Bool × Bool × Bool × Nat :=
    (mg.pin_rays, mg.check_ray_bitboard, mg.in_check, mg.in_double_check, false, 0)
  let res ← (rustRange 0 n).foldlM
    (fun (st : Nat × Nat × Bool × Bool × Bool × Nat × Bool) i => do
      let (pins, crb, chk, dchk, friendly_seen, ray_mask, stopped) := st
      if stopped then pure st
      else do
        let square_idx := mg.friendly_king_square + direction_offset * (i + 1)
        let ray_mask := ray_mask ||| shl64 1 square_idx
        let piece ← rustGet 64 b.squares square_idx
        if piece ≠ Piece.NONE then
          if Piece.is_color piece (colorToPieceColor (if mg.white_to_move then 0 else 1)) then
            if ¬friendly_seen then
              pure (pins, crb, chk, dchk, true, ray_mask, false)
            else
              pure (pins, crb, chk, dchk, friendly_seen, ray_mask, true)
          else
            if (is_diagonal ∧ Piece.can_diag_slide piece) ∨
                (¬is_diagonal ∧ Piece.can_ortho_slide piece) then
              if friendly_seen then
                pure (pins ||| ray_mask, crb, chk, dchk, friendly_seen, ray_mask, true)
              else
                pure (pins, crb ||| ray_mask, true, chk, friendly_seen, ray_mask, true)
            else
              pure (pins, crb, chk, dchk, friendly_seen, ray_mask, true)
        else
          pure (pins, crb, chk, dchk, friendly_seen, ray_mask, false))
    (init.1, init.2.1, init.2.2.1, init.2.2.2.1, init.2.2.2.2.1, init.2.2.2.2.2, false)
  pure (res.1, res.2.1, res.2.2.1, res.2.2.2.1)

/-- Method `MoveGenerator::calculate_attack_map`, including the slider
scan whose direction range is derived from the (never-updated) separate
`queens`/`rooks`/`bishops` piece-list copies of the board. -/
def MoveGenerator.calculate_attack_map (mg : MoveGenerator) (b : Board) :
    Option (MoveGenerator × Board) := do
  let (mg, b) := mg.generate_sliding_attack_map b
  let eq ← rustGet 2 b.queens mg.enemy_index
  let er ← rustGet 2 b.rooks mg.enemy_index
  let eb ← rustGet 2 b.bishops mg.enemy_index
  let start_dir_idx : Int := if eq.count = 0 then (if 0 < er.count then 0 else 4) else 0
  let end_dir_idx : Int := if eq.count = 0 then (if 0 < eb.count then 8 else 4) else 8
  let scan ← (rustRange start_dir_idx end_dir_idx).foldlM
    (fun (st : Nat × Nat × Bool × Bool) dirI => do
      let (pins, crb, chk, dchk) := st
      if dchk then pure st
      else do
        let dir := dirI.toNat
        let is_diagonal := 3 < dir
        let slider := if is_diagonal then b.enemy_diag_slider_bb else b.enemy_ortho_slider_bb
        if Nat.land (pmdDirRayMask dir mg.friendly_king_square) slider = 0 then pure st
        else do
          let mg1 := { mg with pin_rays := pins, check_ray_bitboard := crb,
                               in_check := chk, in_double_check := dchk }
          mg1.scanRay b dir)
    (mg.pin_rays, mg.check_ray_bitboard, mg.in_check, mg.in_double_check)
  let mg := { mg with pin_rays := scan.1, check_ray_bitboard := scan.2.1,
                      in_check := scan.2.2.1, in_double_check := scan.2.2.2 }
  let mg := { mg with not_pin_rays := not64 mg.pin_rays }
  -- Knight attacks
  let knights_bb ← rustGet 15 b.piece_bbs
    (Piece.fromTypeColor Piece.KNIGHT (colorToPieceColor b.opponent_color))
  let friendly_king_bb ← rustGet 15 b.piece_bbs
    (Piece.fromTypeColor Piece.KING (colorToPieceColor b.move_color))
  let kn := (bbToList knights_bb).foldl
    (fun (st : Nat × Nat × Bool × Bool) knight_square =>
      let (opp_kn, crb, chk, dchk) := st
      let knight_attacks := bbKnightAttacks knight_square
      let opp_kn := opp_kn ||| knight_attacks
      if Nat.land knight_attacks friendly_king_bb ≠ 0 then
        (opp_kn, crb ||| shl64 1 (knight_square : Int), true, chk)
      else (opp_kn, crb, chk, dchk))
    (0, mg.check_ray_bitboard, mg.in_check, mg.in_double_check)
  let opponent_knight_attacks := kn.1
  let mg := { mg with check_ray_bitboard := kn.2.1, in_check := kn.2.2.1,
                      in_double_check := kn.2.2.2 }
  -- Pawn attacks
  let opponent_pawns_bb ← rustGet 15 b.piece_bbs
    (Piece.fromTypeColor Piece.PAWN (colorToPieceColor b.opponent_color))
  let opponent_pawn_attack_map := bbPawnAttacks opponent_pawns_bb (¬mg.white_to_move)
  let mg ←
    if bbContainsSquare opponent_pawn_attack_map mg.friendly_king_square then do
      let origins ← rustGet 64
        (fun sq => if b.white_to_move then bbWhitePawnAttacks sq else bbBlackPawnAttacks sq)
        mg.friendly_king_square
      let pawn_check_map := Nat.land opponent_pawns_bb origins
      pure { mg with in_double_check := mg.in_check, in_check := true,
                     check_ray_bitboard := mg.check_ray_bitboard ||| pawn_check_map }
    else pure mg
  let enemy_king_square ← rustGet 2 b.king_squares mg.enemy_index
  let no_pawns := mg.opponent_sliding_attack_map ||| opponent_knight_attacks |||
    (← rustGet 64 (fun sq => bbKingMoves sq) enemy_king_square)
  let mg := { mg with
    opponent_attack_map_no_pawns := no_pawns
    opponent_attack_map := no_pawns ||| opponent_pawn_attack_map
    opponent_pawn_attack_map := opponent_pawn_attack_map }
  let mg := if ¬mg.in_check then { mg with check_ray_bitboard := U64MOD - 1 } else mg
  pure (mg, b)

/-- Constructor `MoveGenerator::new`: convenience data and the attack map.
The friendly king square is read with `king_squares[move_color().to_piece_color()]`,
whose index is 8 for Black against an array of length 2. -/
def MoveGenerator.new (b : Board) (captures_only : Bool) :
    Option (MoveGenerator × Board) := do
  let mg := MoveGenerator.default
  let mg := { mg with generate_quiet_moves := ¬captures_only }
  let mg := { mg with white_to_move := b.move_color = 0 }
  let fk ← rustGet 2 b.king_squares (colorToPieceColor b.move_color)
  let friendly_index := colorToPieceColor b.move_color
  let enemy_index := 1 - friendly_index
  let mg := { mg with friendly_king_square := fk, friendly_index := friendly_index,
                      enemy_index := enemy_index }
  let ep ← rustGet 2 b.color_bbs enemy_index
  let fp ← rustGet 2 b.color_bbs friendly_index
  let mg := { mg with
    enemy_pieces := ep
    friendly_pieces := fp
    all_pieces := b.all_piece_bb
    empty_squares := not64 b.all_piece_bb
    empty_or_enemy_squares := not64 b.all_piece_bb ||| ep
    move_type_mask := if ¬captures_only then U64MOD - 1 else ep }
  mg.calculate_attack_map b

/-- Method `MoveGenerator::generate_king_moves` (king steps and castling).
Each push is guarded by the `current_move_index > MAX_MOVES` early
return. -/
def MoveGenerator.generate_king_moves (mg : MoveGenerator) (b : Board)
    (moves : List Move) : Option (MoveGenerator × List Move) := do
  let legal_mask := not64 (mg.opponent_attack_map ||| mg.friendly_pieces)
  let kt ← rustGet 64 (fun sq => bbKingMoves sq) mg.friendly_king_square
  let king_moves := Nat.land (Nat.land kt legal_mask) mg.move_type_mask
  let st := (bbToList king_moves).foldl
    (fun (st : List Move × Nat × Bool) target_square =>
      let (moves, cmi, stopped) := st
      if stopped then st
      else if MAX_MOVES < cmi then (moves, cmi, true)
      else (moves ++ [Move.fromStartTarget mg.friendly_king_square (target_square : Int)],
        cmi + 1, false))
    (moves, mg.current_move_index, false)
  let (moves, cmi, stopped) := st
  if stopped then pure ({ mg with current_move_index := cmi }, moves)
  else if ¬mg.in_check ∧ mg.generate_quiet_moves then do
    let castle_blockers := mg.opponent_attack_map ||| b.all_piece_bb
    let (moves, cmi, stopped) ←
      if b.state.can_castle_kingside b.white_to_move then do
        let castle_mask := if b.white_to_move then WHITE_KINGSIDE_MASK else BLACK_KINGSIDE_MASK
        if Nat.land castle_mask castle_blockers = 0 then do
          let target_square : Int := if b.white_to_move then 6 else 62
          if MAX_MOVES < cmi then pure (moves, cmi, true)
          else pure (moves ++ [Move.fromParts mg.friendly_king_square target_square CASTLE_FLAG],
            cmi + 1, false)
        else pure (moves, cmi, false)
      else pure (moves, cmi, false)
    if stopped then pure ({ mg with current_move_index := cmi }, moves)
    else if b.state.can_castle_queenside b.white_to_move then do
      let castle_mask := if b.white_to_move then WHITE_QUEENSIDE_MASK2 else BLACK_QUEENSIDE_MASK2
      let castle_block_mask :=
        if b.white_to_move then WHITE_QUEENSIDE_MASK else BLACK_QUEENSIDE_MASK
      if Nat.land castle_mask castle_blockers = 0 ∧ Nat.land castle_block_mask b.all_piece_bb = 0
      then do
        let target_square : Int := if b.white_to_move then 2 else 58
        if MAX_MOVES < cmi then pure ({ mg with current_move_index := cmi }, moves)
        else pure ({ mg with current_move_index := cmi + 1 },
          moves ++ [Move.fromParts mg.friendly_king_square target_square CASTLE_FLAG])
      else pure ({ mg with current_move_index := cmi }, moves)
    else pure ({ mg with current_move_index := cmi }, moves)
  else pure ({ mg with current_move_index := cmi }, moves)

/-- Method `MoveGenerator::generate_sliding_moves`. -/
def MoveGenerator.generate_sliding_moves (mg : MoveGenerator) (b : Board)
    (moves : List Move) : MoveGenerator × List Move :=
  let move_mask := Nat.land (Nat.land mg.empty_or_enemy_squares mg.check_ray_bitboard)
    mg.move_type_mask
  let orthogonal_sliders := b.friendly_ortho_slider_bb
  let diagonal_sliders := b.friendly_diag_slider_bb
  let orthogonal_sliders :=
    if mg.in_check then Nat.land orthogonal_sliders (not64 mg.pin_rays) else orthogonal_sliders
  let diagonal_sliders :=
    if mg.in_check then Nat.land diagonal_sliders (not64 mg.pin_rays) else diagonal_sliders
  let runSliders := fun (ortho : Bool) (sliders : Nat) (st : List Move × Nat × Bool) =>
    (bbToList sliders).foldl
      (fun (st : List Move × Nat × Bool) start_square =>
        let (moves, cmi, stopped) := st
        if stopped then st
        else
          let start_square : Int := (start_square : Int)
          let move_squares :=
            Nat.land (if ortho then get_rook_attacks start_square mg.all_pieces
              else get_bishop_attacks start_square mg.all_pieces) move_mask
          let move_squares :=
            if mg.is_pinned start_square then
              Nat.land move_squares (pmdAlignMask start_square mg.friendly_king_square)
            else move_squares
          (bbToList move_squares).foldl
            (fun (st : List Move × Nat × Bool) target_square =>
              let (moves, cmi, stopped) := st
              if stopped then st
              else if MAX_MOVES < cmi then (moves, cmi, true)
              else (moves ++ [Move.fromStartTarget start_square (target_square : Int)],
                cmi + 1, false))
            (moves, cmi, stopped))
      st
  let st := runSliders true orthogonal_sliders (moves, mg.current_move_index, false)
  let st := runSliders false diagonal_sliders st
  ({ mg with current_move_index := st.2.1 }, st.1)

/-- Method `MoveGenerator::generate_knight_moves`. -/
def MoveGenerator.generate_knight_moves (mg : MoveGenerator) (b : Board)
    (moves : List Move) : Option (MoveGenerator × List Move) := do
  let kbb ← rustGet 15 b.piece_bbs
    (Piece.fromTypeColor Piece.KNIGHT (colorToPieceColor b.move_color))
  let knights := Nat.land kbb mg.not_pin_rays
  let move_mask := Nat.land (Nat.land mg.empty_or_enemy_squares mg.check_ray_bitboard)
    mg.move_type_mask
  let st := (bbToList knights).foldl
    (fun (st : List Move × Nat × Bool) knight_square =>
      let (moves, cmi, stopped) := st
      if stopped then st
      else
        let move_squares := Nat.land (bbKnightAttacks knight_square) move_mask
        (bbToList move_squares).foldl
          (fun (st : List Move × Nat × Bool) target_square =>
            let (moves, cmi, stopped) := st
            if stopped then st
            else if MAX_MOVES < cmi then (moves, cmi, true)
            else (moves ++ [Move.fromStartTarget (knight_square : Int) (target_square : Int)],
              cmi + 1, false))
          (moves, cmi, stopped))
    (moves, mg.current_move_index, false)
  pure ({ mg with current_move_index := st.2.1 }, st.1)

/-- Method `MoveGenerator::generate_promotions`: writes promotion moves by
index assignment `moves[current_move_index] = ..` into the `Vec`, which
panics whenever the index equals the current length. -/
def MoveGenerator.generate_promotions (mg : MoveGenerator) (start_square target_square : Int)
    (moves : List Move) : Option (MoveGenerator × List Move) := do
  if MAX_MOVES < mg.current_move_index then pure (mg, moves)
  else do
    let moves ← vecSet moves mg.current_move_index
      (Move.fromParts start_square target_square PROMOTE_TO_QUEEN_FLAG)
    let cmi := mg.current_move_index + 1
    if mg.generate_quiet_moves then
      match mg.promotions_to_generate with
      | PromotionMode.All => do
        if MAX_MOVES < cmi then pure ({ mg with current_move_index := cmi }, moves)
        else do
          let moves ← vecSet moves cmi
            (Move.fromParts start_square target_square PROMOTE_TO_KNIGHT_FLAG)
          let cmi := cmi + 1
          if MAX_MOVES < cmi then pure ({ mg with current_move_index := cmi }, moves)
          else do
            let moves ← vecSet moves cmi
              (Move.fromParts start_square target_square PROMOTE_TO_ROOK_FLAG)
            let cmi := cmi + 1
            if MAX_MOVES < cmi then pure ({ mg with current_move_index := cmi }, moves)
            else do
              let moves ← vecSet moves cmi
                (Move.fromParts start_square target_square PROMOTE_TO_BISHOP_FLAG)
              pure ({ mg with current_move_index := cmi + 1 }, moves)
      | PromotionMode.QueenAndKnight => do
        if MAX_MOVES < cmi then pure ({ mg with current_move_index := cmi }, moves)
        else do
          let moves ← vecSet moves cmi
            (Move.fromParts start_square target_square PROMOTE_TO_KNIGHT_FLAG)
          pure ({ mg with current_move_index := cmi + 1 }, moves)
      | PromotionMode.Queen => pure ({ mg with current_move_index := cmi }, moves)
    else pure ({ mg with current_move_index := cmi }, moves)

/-- Helper `MoveGenerator::in_check_after_ep`: reads the board's
`enemy_ortho_slider_bb` field (already consumed to zero by
`update_slide_attack` when this runs inside a generation pass). -/
def MoveGenerator.in_check_after_ep (mg : MoveGenerator) (b : Board)
    (start_square target_square ep_capture_square : Int) : Bool :=
  let enemy_ortho := b.enemy_ortho_slider_bb
  if enemy_ortho ≠ 0 then
    let masked_blockers := Nat.xor mg.all_pieces
      (shl64 1 ep_capture_square ||| shl64 1 start_square ||| shl64 1 target_square)
    let rook_attacks := get_rook_attacks mg.friendly_king_square masked_blockers
    Nat.land rook_attacks enemy_ortho ≠ 0
  else false

/-- Pin-clip test shared by the pawn-move loops: not pinned, or the align
masks of origin and target through the king coincide. -/
def MoveGenerator.pawnPinOk (mg : MoveGenerator) (start_square target_square : Int) : Bool :=
  ¬mg.is_pinned start_square ∨
    pmdAlignMask start_square mg.friendly_king_square =
      pmdAlignMask target_square mg.friendly_king_square

/-- Method `MoveGenerator::generate_pawn_moves`. -/
def MoveGenerator.generate_pawn_moves (mg : MoveGenerator) (b : Board)
    (moves : List Move) : Option (MoveGenerator × List Move) := do
  let push_dir : Int := if b.white_to_move then 1 else -1
  let push_offset := push_dir * 8
  let pawns ← rustGet 15 b.piece_bbs
    (Piece.fromTypeColor Piece.PAWN (colorToPieceColor b.move_color))
  let promotion_rank_mask := if b.white_to_move then RANK_8 else RANK_1
  let single_push := Nat.land (bbShift pawns push_offset) mg.empty_squares
  let push_promotions :=
    Nat.land (Nat.land single_push promotion_rank_mask) mg.check_ray_bitboard
  let capture_edge_file_mask := if b.white_to_move then NOT_A_FILE else NOT_H_FILE
  let capture_edge_file_mask2 := if b.white_to_move then NOT_H_FILE else NOT_A_FILE
  let capture_a :=
    Nat.land (bbShift (Nat.land pawns capture_edge_file_mask) (push_dir * 7)) mg.enemy_pieces
  let capture_b :=
    Nat.land (bbShift (Nat.land pawns capture_edge_file_mask2) (push_dir * 9)) mg.enemy_pieces
  let single_push_no_promotion :=
    Nat.land (Nat.land single_push (not64 promotion_rank_mask)) mg.check_ray_bitboard
  let capture_promotions_a :=
    Nat.land (Nat.land capture_a promotion_rank_mask) mg.check_ray_bitboard
  let capture_promotions_b :=
    Nat.land (Nat.land capture_b promotion_rank_mask) mg.check_ray_bitboard
  let capture_a := Nat.land capture_a (Nat.land mg.check_ray_bitboard (not64 promotion_rank_mask))
  let capture_b := Nat.land capture_b (Nat.land mg.check_ray_bitboard (not64 promotion_rank_mask))
  -- Single / double pushes (quiet generation only)
  let st ←
    if mg.generate_quiet_moves then do
      let st := (bbToList single_push_no_promotion).foldl
        (fun (st : List Move × Nat × Bool) target_square =>
          let (moves, cmi, stopped) := st
          if stopped then st
          else
            let target_square : Int := (target_square : Int)
            let start_square := target_square - push_offset
            if mg.pawnPinOk start_square target_square then
              if MAX_MOVES < cmi then (moves, cmi, true)
              else (moves ++ [Move.fromStartTarget start_square target_square], cmi + 1, false)
            else st)
        (moves, mg.current_move_index, false)
      let double_push_target_rank_mask := if b.white_to_move then RANK_4 else RANK_5
      let double_push := Nat.land
        (Nat.land (Nat.land (bbShift single_push push_offset) mg.empty_squares)
          double_push_target_rank_mask) mg.check_ray_bitboard
      pure ((bbToList double_push).foldl
        (fun (st : List Move × Nat × Bool) target_square =>
          let (moves, cmi, stopped) := st
          if stopped then st
          else
            let target_square : Int := (target_square : Int)
            let start_square := target_square - push_offset * 2
            if mg.pawnPinOk start_square target_square then
              if MAX_MOVES < cmi then (moves, cmi, true)
              else (moves ++ [Move.fromParts start_square target_square PAWN_TWO_UP_FLAG],
                cmi + 1, false)
            else st)
        st)
    else pure (moves, mg.current_move_index, false)
  -- Captures
  let runCaptures := fun (bb : Nat) (offs : Int) (st : List Move × Nat × Bool) =>
    (bbToList bb).foldl
      (fun (st : List Move × Nat × Bool) target_square =>
        let (moves, cmi, stopped) := st
        if stopped then st
        else
          let target_square : Int := (target_square : Int)
          let start_square := target_square - offs
          if mg.pawnPinOk start_square target_square then
            if MAX_MOVES < cmi then (moves, cmi, true)
            else (moves ++ [Move.fromStartTarget start_square target_square], cmi + 1, false)
          else st)
      st
  let st := runCaptures capture_a (push_dir * 7) st
  let st := runCaptures capture_b (push_dir * 9) st
  -- Promotions
  let mg := { mg with current_move_index := st.2.1 }
  let promoSt ← (bbToList push_promotions).foldlM
    (fun (st : MoveGenerator × List Move) target_square => do
      let (mg, moves) := st
      let target_square : Int := (target_square : Int)
      let start_square := target_square - push_offset
      if ¬mg.is_pinned start_square then
        mg.generate_promotions start_square target_square moves
      else pure st)
    (mg, st.1)
  let runCapPromos := fun (bb : Nat) (offs : Int) (st : MoveGenerator × List Move) =>
    (bbToList bb).foldlM
      (fun (st : MoveGenerator × List Move) target_square => do
        let (mg, moves) := st
        let target_square : Int := (target_square : Int)
        let start_square := target_square - offs
        if mg.pawnPinOk start_square target_square then
          mg.generate_promotions start_square target_square moves
        else pure st)
      st
  let promoSt ← runCapPromos capture_promotions_a (push_dir * 7) promoSt
  let promoSt ← runCapPromos capture_promotions_b (push_dir * 9) promoSt
  let (mg, moves) := promoSt
  -- En passant
  if 0 < b.state.en_passant_file then do
    let ep_file_idx := b.state.en_passant_file - 1
    let ep_rank_idx : Int := if b.white_to_move then 5 else 2
    let target_square := ep_rank_idx * 8 + ep_file_idx
    let captured_pawn_square := target_square - push_offset
    if bbContainsSquare mg.check_ray_bitboard captured_pawn_square then do
      let pawns_that_can_capture_ep :=
        Nat.land pawns (bbPawnAttacks (shl64 1 target_square) (¬b.white_to_move))
      let st ← (bbToList pawns_that_can_capture_ep).foldlM
        (fun (st : List Move × Nat × Bool) start_square => do
          let (moves, cmi, stopped) := st
          if stopped then pure st
          else do
            let start_square : Int := (start_square : Int)
            if mg.pawnPinOk start_square target_square then
              if ¬mg.in_check_after_ep b start_square target_square captured_pawn_square then
                if MAX_MOVES < cmi then pure (moves, cmi, true)
                else pure (moves ++
                  [Move.fromParts start_square target_square EN_PASSANT_CAPTURE_FLAG],
                  cmi + 1, false)
              else pure st
            else pure st)
        (moves, mg.current_move_index, false)
      pure ({ mg with current_move_index := st.2.1 }, st.1)
    else pure (mg, moves)
  else pure (mg, moves)

/-- Method `MoveGenerator::generate`: king moves always, the rest unless in
double check, then truncation to `current_move_index`. -/
def MoveGenerator.generate (b : Board) (captures_only : Bool) :
    Option (List Move × MoveGenerator × Board) := do
  let (mg, b) ← MoveGenerator.new b captures_only
  let (mg, moves) ← mg.generate_king_moves b []
  if ¬mg.in_double_check then do
    let (mg, moves) := mg.generate_sliding_moves b moves
    let (mg, moves) ← mg.generate_knight_moves b moves
    let (mg, moves) ← mg.generate_pawn_moves b moves
    pure (moves.take mg.current_move_index, mg, b)
  else
    pure (moves.take mg.current_move_index, mg, b)

/-- Method `Board::generate_moves`. -/
def Board.generate_moves (b : Board) (captures_only : Bool) :
    Option (List Move × MoveGenerator × Board) :=
  MoveGenerator.generate b captures_only

/- ### fen.rs (export side) -/

/-- Method `Board::can_capture` of `fen.rs`: tests an en-passant capture by
playing it, making a null move and asking `calculate_in_check_state`
(which is `todo!()` and panics whenever this branch is reached).  The
square read happens before the validity test, as in the source. -/
def Board.can_capture (b : Board) (fromC : Coord) (ep_capture_square friendly_pawn : Int) :
    Option (Bool × Board) := do
  let sq ← rustGet 64 b.squares fromC.index
  let is_pawn_on_square := sq = friendly_pawn
  if fromC.is_valid_square ∧ is_pawn_on_square then do
    let mv := Move.fromParts fromC.index ep_capture_square EN_PASSANT_CAPTURE_FLAG
    let b ← b.make_move mv false
    let b ← b.make_null_move
    let chk ← b.calculate_in_check_state
    let was_legal := ¬chk
    let b ← b.unmake_null_move
    let b ← b.unmake_move mv false
    pure (was_legal, b)
  else pure (false, b)

/-- Method `Board::ep_capture_possible` of `fen.rs`. -/
def Board.ep_capture_possible (b : Board) (ep_file_idx ep_rank_idx : Int) :
    Option (Bool × Board) := do
  let dr : Int := if b.white_to_move then -1 else 1
  let capture_from_a := Coord.fromPair (ep_file_idx - 1) (ep_rank_idx + dr)
  let capture_from_b := Coord.fromPair (ep_file_idx + 1) (ep_rank_idx + dr)
  let ep_capture_square := (Coord.fromPair ep_file_idx ep_rank_idx).index
  let friendly_pawn := Piece.fromTypeColor Piece.PAWN (colorToPieceColor b.move_color)
  let pa ← b.can_capture capture_from_a ep_capture_square friendly_pawn
  if pa.1 then pure pa
  else pa.2.can_capture capture_from_b ep_capture_square friendly_pawn

/-- Method `Board::current_fen` of `fen.rs`.  The board-section loop is
`for rank in 7..=0`, an empty Rust range, and the side to move is written
with `format!("{}", white_to_move)`, i.e. as `true`/`false`; both are
embedded faithfully. -/
def Board.current_fen (b : Board) (always_show_ep : Bool) : Option String := do
  let fen ← (rustRangeIncl 7 0).foldlM
    (fun (fen : String) rank => do
      let r ← (rustRange 0 8).foldlM
        (fun (st : String × Int) file => do
          let i := (Coord.fromPair file rank).index
          let current_piece ← rustGet 64 b.squares i
          if current_piece ≠ Piece.NONE then
            let st := if st.2 ≠ 0 then (st.1 ++ intDisplay st.2, (0 : Int)) else st
            pure (st.1.push (Piece.get_symbol current_piece), (0 : Int))
          else pure (st.1, st.2 + 1))
        (fen, (0 : Int))
      let fen := if r.2 ≠ 0 then r.1 ++ intDisplay r.2 else r.1
      pure (if rank ≠ 0 then fen.push '/' else fen))
    ""
  let fen := fen ++ (if b.white_to_move then "true" else "false")
  let cr := toU32 b.state.castling_rights
  let white_kingside := Nat.land cr 1 = 1
  let white_queenside := Nat.land (cr >>> 1) 1 = 1
  let black_kingside := Nat.land (cr >>> 2) 1 = 1
  let black_queenside := Nat.land (cr >>> 3) 1 = 1
  let fen := fen.push ' '
  let fen := if white_kingside then fen.push 'K' else fen
  let fen := if white_queenside then fen.push 'Q' else fen
  let fen := if black_kingside then fen.push 'k' else fen
  let fen := if black_queenside then fen.push 'q' else fen
  let fen := if b.state.castling_rights = 0 then fen.push '-' else fen
  let fen := fen.push ' '
  let ep_file_idx := b.state.en_passant_file - 1
  let ep_rank_idx : Int := if b.white_to_move then 5 else 2
  let ep_coord := Coord.fromPair ep_file_idx ep_rank_idx
  let is_ep := ep_file_idx ≠ -1
  let inc ←
    if always_show_ep then pure (true, b)
    else b.ep_capture_possible ep_file_idx ep_rank_idx
  let fen ←
    if is_ep ∧ inc.1 then do
      let epn ← ep_coord.toUciString
      pure (fen ++ epn)
    else pure (fen.push '-')
  let fen := fen ++ " " ++ intDisplay b.state.halfmove_clock
  pure (fen ++ " " ++ intDisplay (Int.tdiv b.ply_count 2 + 1))

/- ### move.rs UCI conversion -/

/-- Byte slice `&s[a..b]` of a Rust string (ASCII inputs); out-of-range
bounds panic. -/
def rustSliceStr (s : String) (a b : Nat) : Option String :=
  if a ≤ b ∧ b ≤ s.length then some (String.mk ((s.toList.drop a).take (b - a))) else none

/-- Method `Move::from_uci`: parses `move_name[0..3]` and `move_name[2..5]`
through `Coord::from_string` and derives the flag from the board, exactly
as in `move.rs` (the slice bounds are the source's). -/
def Move.from_uci (b : Board) (move_name : String) : Option Move := do
  let s03 ← rustSliceStr move_name 0 3
  let start_coord := Coord.from_string s03
  let start_square := start_coord.index
  let s25 ← rustSliceStr move_name 2 5
  let target_coord := Coord.from_string s25
  let target_square := target_coord.index
  let mp ← rustGet 64 b.squares start_square
  let moved_piece_type := Piece.get_type mp
  let flag ←
    if moved_piece_type = Piece.PAWN then
      if 4 < move_name.length then
        pure (match move_name.toList.getLast? with
          | some 'q' => PROMOTE_TO_QUEEN_FLAG
          | some 'r' => PROMOTE_TO_ROOK_FLAG
          | some 'n' => PROMOTE_TO_KNIGHT_FLAG
          | some 'b' => PROMOTE_TO_BISHOP_FLAG
          | _ => NO_FLAG)
      else if (target_coord.rank_idx - start_coord.rank_idx).natAbs = 2 then
        pure PAWN_TWO_UP_FLAG
      else do
        let tp ← rustGet 64 b.squares target_square
        if start_coord.file_idx ≠ target_coord.file_idx ∧ tp = Piece.NONE then
          pure EN_PASSANT_CAPTURE_FLAG
        else pure NO_FLAG
    else if moved_piece_type = Piece.KING then
      pure (if 1 < (start_coord.file_idx - target_coord.file_idx).natAbs then CASTLE_FLAG
        else NO_FLAG)
    else pure NO_FLAG
  pure (Move.fromParts start_square target_square flag)

/-- Method `Move::to_uci`: square names and the optional promotion
letter. -/
def Move.to_uci (m : Move) : Option String := do
  let start_square_name ← (Coord.new m.start_square).toUciString
  let target_square_name ← (Coord.new m.target_square).toUciString
  let move_name := start_square_name ++ target_square_name
  if m.is_promotion then
    if m.move_flag = PROMOTE_TO_ROOK_FLAG then pure (move_name.push 'r')
    else if m.move_flag = PROMOTE_TO_KNIGHT_FLAG then pure (move_name.push 'n')
    else if m.move_flag = PROMOTE_TO_BISHOP_FLAG then pure (move_name.push 'b')
    else if m.move_flag = PROMOTE_TO_QUEEN_FLAG then pure (move_name.push 'q')
    else pure move_name
  else pure move_name

/- ### lu_tables.rs -/

/-- Stack capacity `HASHES_LEN` of the repetition table. -/
def HASHES_LEN : Nat := 256

/-- Repetition table from `lu_tables.rs`. -/
structure RepetitionTable where
  hashes : Nat → Nat
  start_indices : Nat → Nat
  count : Nat

/-- Fresh repetition table (all zeros, count 0), the initial state of the
struct literal in `RepetitionTable::new` before the board history is
copied in. -/
def RepetitionTable.empty : RepetitionTable := ⟨fun _ => 0, fun _ => 0, 0⟩

/-- Method `RepetitionTable::new(board)`: copies the board's repetition
history (latest first) into the stack. -/
def RepetitionTable.ofBoard (b : Board) : RepetitionTable :=
  let initial_hashes := b.repetition_history.reverse
  let t := RepetitionTable.empty
  let t := { t with count := initial_hashes.length }
  (List.range initial_hashes.length).foldl
    (fun (t : RepetitionTable) i =>
      { t with hashes := fun j => if j = i then initial_hashes.getD i 0 else t.hashes j,
               start_indices := fun j => if j = i then 0 else t.start_indices j })
    t

/-- Method `RepetitionTable::push`: writes only while below capacity but
always increments the count. -/
def RepetitionTable.push (t : RepetitionTable) (hash : Nat) (reset : Bool) : RepetitionTable :=
  let t :=
    if t.count < HASHES_LEN then
      let si := if reset then t.count else t.start_indices t.count
      { t with hashes := fun j => if j = t.count then hash else t.hashes j,
               start_indices := fun j => if j = t.count + 1 then si else t.start_indices j }
    else t
  { t with count := t.count + 1 }

/-- Method `RepetitionTable::try_pop` (`count = 0.max(count - 1)` with
`usize` arithmetic, so the subtraction wraps before `max` applies). -/
def RepetitionTable.try_pop (t : RepetitionTable) : RepetitionTable :=
  { t with count := Nat.max 0 (usizeSub t.count 1) }

/-- Method `RepetitionTable::contains`: scans from the current window start
to the top of the stack. -/
def RepetitionTable.contains (t : RepetitionTable) (hash : Nat) : Option Bool := do
  let start ← rustGetN (HASHES_LEN + 1) t.start_indices t.count
  (List.range (t.count - start)).foldlM
    (fun acc k => do
      if acc then pure true
      else do
        let h ← rustGetN HASHES_LEN t.hashes (start + k)
        pure (h = hash))
    false

/-- Node-type constant `LOOKUP_FAILED`. -/
def LOOKUP_FAILED : Int := -1

/-- Node-type constant `EXACT`. -/
def EXACT : Int := 0

/-- Node-type constant `LOWER_BOUND`. -/
def LOWER_BOUND : Int := 1

/-- Node-type constant `UPPER_BOUND`. -/
def UPPER_BOUND : Int := 2

/-- Transposition-table entry from `lu_tables.rs` (`depth` and `node_type`
are stored as `u8`). -/
structure Entry where
  key : Nat
  value : Int
  mv : Move
  depth : Nat
  node_type : Nat
deriving DecidableEq

/-- Size constant `Entry::SIZE_BYTES` (`size_of::<Option<Entry>>()`, 24
bytes on the 64-bit layout: 16 bytes of fields padded to 8-byte alignment
plus the discriminant). -/
def Entry.SIZE_BYTES : Nat := 24

/-- Transposition table from `lu_tables.rs` with the entry array embedded
as a function. -/
structure TranspositionTable where
  entries : Nat → Option Entry
  count : Nat
  enabled : Bool

/-- Constructor `TranspositionTable::new(size_mb)`. -/
def TranspositionTable.new (size_mb : Nat) : TranspositionTable :=
  ⟨fun _ => none, size_mb * 1024 * 1024 / Entry.SIZE_BYTES, true⟩

/-- Method `TranspositionTable::index` (`key % count as u64`); a zero count
panics in Rust (`% 0`). -/
def TranspositionTable.index (tt : TranspositionTable) (b : Board) : Option Nat :=
  if tt.count = 0 then none else some (b.state.zobrist.key % tt.count)

/-- Method `TranspositionTable::try_get_stored_move`. -/
def TranspositionTable.try_get_stored_move (tt : TranspositionTable) (b : Board) :
    Option (Option Move) := do
  let i ← tt.index b
  pure ((tt.entries i).map Entry.mv)

/-- Mate threshold `IMMEDIATE_MATE_SCORE` of `searcher.rs`. -/
def IMMEDIATE_MATE_SCORE : Int := 100000

/-- Window bound `POSITIVE_INFINITY` of `searcher.rs`. -/
def POSITIVE_INFINITY : Int := 9999999

/-- Window bound `NEGATIVE_INFINITY` of `searcher.rs`. -/
def NEGATIVE_INFINITY : Int := -POSITIVE_INFINITY

/-- Constant `MAX_MATE_DEPTH` of `searcher.rs`. -/
def MAX_MATE_DEPTH : Int := 1000

/-- Constant `MAX_PLY` of `searcher.rs`. -/
def SEARCH_MAX_PLY : Int := 256

/-- Constant `MAX_EXTENSIONS` of `searcher.rs`. -/
def MAX_EXTENSIONS : Int := 16

/-- Constant `REDUCE_DEPTH` of `searcher.rs`. -/
def REDUCE_DEPTH : Int := 1

/-- Function `searcher::is_mate_score` (`i32::MIN` excluded, then
`|score| > MATE - 1000`). -/
def is_mate_score (score : Int) : Bool :=
  if score = -2147483648 then false
  else IMMEDIATE_MATE_SCORE - MAX_MATE_DEPTH < |score|

/-- Helper `TranspositionTable::correct_mate_score_for_storage`
(`(score * sign + ply) * sign` for mate scores). -/
def correct_mate_score_for_storage (score num_ply_searched : Int) : Int :=
  if is_mate_score score then
    let sign := score.sign
    (score * sign + num_ply_searched) * sign
  else score

/-- Helper `TranspositionTable::correct_retrieved_mate_score`
(`(score * sign - ply) * sign` for mate scores). -/
def correct_retrieved_mate_score (score num_ply_searched : Int) : Int :=
  if is_mate_score score then
    let sign := score.sign
    (score * sign - num_ply_searched) * sign
  else score

/-- Method `TranspositionTable::lookup_evaluation`: on exact key match with
stored depth at least the probe depth, an `EXACT` entry returns the
ply-corrected score, an `UPPER_BOUND` entry returns it only when it is at
most alpha, a `LOWER_BOUND` entry only when it is at least beta; every
other case yields `LOOKUP_FAILED`. -/
def TranspositionTable.lookup_evaluation (tt : TranspositionTable) (b : Board)
    (depth ply_from_root alpha beta : Int) : Option Int :=
  if ¬tt.enabled then some LOOKUP_FAILED
  else do
    let i ← tt.index b
    match tt.entries i with
    | some entry =>
      if entry.key = b.state.zobrist.key ∧ depth ≤ (entry.depth : Int) then
        let corrected_score := correct_retrieved_mate_score entry.value ply_from_root
        if entry.node_type = 0 then pure corrected_score
        else if entry.node_type = 2 then
          pure (if corrected_score ≤ alpha then corrected_score else LOOKUP_FAILED)
        else if entry.node_type = 1 then
          pure (if beta ≤ corrected_score then corrected_score else LOOKUP_FAILED)
        else pure LOOKUP_FAILED
      else pure LOOKUP_FAILED
    | none => pure LOOKUP_FAILED

/-- Method `TranspositionTable::store_evaluation` (always-replace; depth and
node type truncated to `u8`). -/
def TranspositionTable.store_evaluation (tt : TranspositionTable) (mv : Move) (b : Board)
    (depth num_ply_searched eval eval_type : Int) : Option TranspositionTable :=
  if ¬tt.enabled then some tt
  else do
    let value := correct_mate_score_for_storage eval num_ply_searched
    let entry : Entry := ⟨b.state.zobrist.key, value, mv, (depth % 256).toNat,
      (eval_type % 256).toNat⟩
    let idx ← tt.index b
    pure { tt with entries := fun j => if j = idx then some entry else tt.entries j }

/- ### precomputed_evals.rs -/

/-- Piece-square table `PAWNS`. -/
def PST_PAWNS : List Int :=
  [0, 0, 0, 0, 0, 0, 0, 0, 50, 50, 50, 50, 50, 50, 50, 50, 10, 10, 20, 30, 30, 20, 10, 10,
   5, 5, 10, 25, 25, 10, 5, 5, 0, 0, 0, 20, 20, 0, 0, 0, 5, -5, -10, 0, 0, -10, -5, 5,
   5, 10, 10, -20, -20, 10, 10, 5, 0, 0, 0, 0, 0, 0, 0, 0]

/-- Piece-square table `PAWNS_ENDGAME`. -/
def PST_PAWNS_ENDGAME : List Int :=
  [0, 0, 0, 0, 0, 0, 0, 0, 80, 80, 80, 80, 80, 80, 80, 80, 50, 50, 50, 50, 50, 50, 50, 50,
   30, 30, 30, 30, 30, 30, 30, 30, 20, 20, 20, 20, 20, 20, 20, 20, 10, 10, 10, 10, 10, 10, 10, 10,
   10, 10, 10, 10, 10, 10, 10, 10, 0, 0, 0, 0, 0, 0, 0, 0]

/-- Piece-square table `ROOKS`. -/
def PST_ROOKS : List Int :=
  [0, 0, 0, 0, 0, 0, 0, 0, 5, 10, 10, 10, 10, 10, 10, 5, -5, 0, 0, 0, 0, 0, 0, -5,
   -5, 0, 0, 0, 0, 0, 0, -5, -5, 0, 0, 0, 0, 0, 0, -5, -5, 0, 0, 0, 0, 0, 0, -5,
   -5, 0, 0, 0, 0, 0, 0, -5, 0, 0, 0, 5, 5, 0, 0, 0]

/-- Piece-square table `KNIGHTS`. -/
def PST_KNIGHTS : List Int :=
  [-50, -40, -30, -30, -30, -30, -40, -50, -40, -20, 0, 0, 0, 0, -20, -40,
   -30, 0, 10, 15, 15, 10, 0, -30, -30, 5, 15, 20, 20, 15, 5, -30,
   -30, 0, 15, 20, 20, 15, 0, -30, -30, 5, 10, 15, 15, 10, 5, -30,
   -40, -20, 0, 5, 5, 0, -20, -40, -50, -40, -30, -30, -30, -30, -40, -50]

/-- Piece-square table `BISHOPS`. -/
def PST_BISHOPS : List Int :=
  [-20, -10, -10, -10, -10, -10, -10, -20, -10, 0, 0, 0, 0, 0, 0, -10,
   -10, 0, 5, 10, 10, 5, 0, -10, -10, 5, 5, 10, 10, 5, 5, -10,
   -10, 0, 10, 10, 10, 10, 0, -10, -10, 10, 10, 10, 10, 10, 10, -10,
   -10, 5, 0, 0, 0, 0, 5, -10, -20, -10, -10, -10, -10, -10, -10, -20]

/-- Piece-square table `QUEENS`. -/
def PST_QUEENS : List Int :=
  [-20, -10, -10, -5, -5, -10, -10, -20, -10, 0, 0, 0, 0, 0, 0, -10,
   -10, 0, 5, 5, 5, 5, 0, -10, -5, 0, 5, 5, 5, 5, 0, -5,
   0, 0, 5, 5, 5, 5, 0, -5, -10, 5, 5, 5, 5, 5, 0, -10,
   -10, 0, 5, 0, 0, 0, 0, -10, -20, -10, -10, -5, -5, -10, -10, -20]

/-- Piece-square table `KING_START`. -/
def PST_KING_START : List Int :=
  [-80, -70, -70, -70, -70, -70, -70, -80, -60, -60, -60, -60, -60, -60, -60, -60,
   -40, -50, -50, -60, -60, -50, -50, -40, -30, -40, -40, -50, -50, -40, -40, -30,
   -20, -30, -30, -40, -40, -30, -30, -20, -10, -20, -20, -20, -20, -20, -20, -10,
   20, 20, -5, -5, -5, -5, 20, 20, 20, 30, 10, 0, 0, 10, 30, 20]

/-- Piece-square table `KING_ENDGAME`. -/
def PST_KING_ENDGAME : List Int :=
  [-20, -10, -10, -10, -10, -10, -10, -20, -5, 0, 5, 5, 5, 5, 0, -5,
   -10, -5, 20, 30, 30, 20, -5, -10, -15, -10, 35, 45, 45, 35, -10, -15,
   -20, -15, 30, 40, 40, 30, -15, -20, -25, -20, 20, 25, 25, 20, -20, -25,
   -30, -25, 0, 0, 0, 0, -25, -30, -50, -30, -30, -30, -30, -30, -30, -50]

/-- Function `get_flipped_table`: vertical flip of a 64-entry table. -/
def get_flipped_table (table : List Int) (k : Nat) : Int :=
  let coord := Coord.new (k : Int)
  table.getD ((7 - coord.rank_idx) * 8 + coord.file_idx).toNat 0

/-- Table array of `PieceSquareTable::new` indexed by the colored piece
value: direct tables for the white pieces, vertically flipped tables for
the black pieces, zero rows elsewhere (kings included, as in the source).
Built via the once-cell getter `get_pst`, which is not under `src/`. -/
def pstTables (piece : Nat) (square : Nat) : Int :=
  if piece = 1 then PST_PAWNS.getD square 0
  else if piece = 4 then PST_ROOKS.getD square 0
  else if piece = 2 then PST_KNIGHTS.getD square 0
  else if piece = 3 then PST_BISHOPS.getD square 0
  else if piece = 5 then PST_QUEENS.getD square 0
  else if piece = 9 then get_flipped_table PST_PAWNS square
  else if piece = 12 then get_flipped_table PST_ROOKS square
  else if piece = 10 then get_flipped_table PST_KNIGHTS square
  else if piece = 11 then get_flipped_table PST_BISHOPS square
  else if piece = 13 then get_flipped_table PST_QUEENS square
  else 0

/-- Method `PieceSquareTable::read` (`tables[piece as usize][square as
usize]`). -/
def pstRead (piece square : Int) : Option Int := do
  let p ← rustGet 15 (fun i => i) piece
  rustGet 64 (fun sq => pstTables p sq) square

/- ### move_ordering.rs -/

/-- Killer-move pair from `move_ordering.rs`. -/
structure Killers where
  move_a : Move
  move_b : Move
deriving DecidableEq

/-- Constructor `Killers::default`. -/
def Killers.default : Killers := ⟨Move.null, Move.null⟩

/-- Method `Killers::add`. -/
def Killers.add (k : Killers) (mv : Move) : Killers :=
  if mv.value ≠ k.move_a.value then ⟨mv, k.move_a⟩ else k

/-- Method `Killers::matches`. -/
def Killers.matches (k : Killers) (mv : Move) : Bool :=
  mv.value = k.move_a.value ∨ mv.value = k.move_b.value

/-- Killer table size `MAX_KILLER_MOVE_PLY`. -/
def MAX_KILLER_MOVE_PLY : Nat := 32

/-- Ordering bias `HASH_MOVE_SCORE`. -/
def HASH_MOVE_SCORE : Int := 100000000

/-- Ordering bias `WINNING_CAPTURE_BIAS`. -/
def WINNING_CAPTURE_BIAS : Int := 8000000

/-- Ordering bias `PROMOTE_BIAS`. -/
def PROMOTE_BIAS : Int := 6000000

/-- Ordering bias `KILLER_BIAS`. -/
def KILLER_BIAS : Int := 4000000

/-- Ordering bias `LOSING_CAPTURE_BIAS`. -/
def LOSING_CAPTURE_BIAS : Int := 2000000

/-- Ordering bias `REGULAR_BIAS`. -/
def REGULAR_BIAS : Int := 0

/-- Move-ordering state from `move_ordering.rs`. -/
structure MoveOrdering where
  move_scores : Nat → Int
  killer_moves : Nat → Killers
  history : Nat → Nat → Nat → Int

/-- Constructor `MoveOrdering::new`. -/
def MoveOrdering.new : MoveOrdering :=
  ⟨fun _ => 0, fun _ => Killers.default, fun _ _ _ => 0⟩

/-- Score of one move as computed inside the loop of
`MoveOrdering::order_moves`. -/
def MoveOrdering.scoreOf (mo : MoveOrdering) (b : Board) (hash_move mv : Move)
    (opponent_attacks opponent_pawn_attacks : Nat) (in_q_search : Bool) (ply : Int) :
    Option Int := do
  if mv = hash_move then pure HASH_MOVE_SCORE
  else do
    let start_square := mv.start_square
    let target_square := mv.target_square
    let move_square ← rustGet 64 b.squares start_square
    let move_piece_type := Piece.get_type move_square
    let capture_square ← rustGet 64 b.squares target_square
    let capture_piece_type := Piece.get_type capture_square
    let is_capture := capture_piece_type ≠ Piece.NONE
    let flag := mv.move_flag
    let piece_value := Piece.get_piece_value move_piece_type
    let score : Int := 0
    let score ←
      if is_capture then do
        let capture_material_delta := Piece.get_piece_value capture_piece_type - piece_value
        let opponent_can_recapture :=
          bbContainsSquare (opponent_pawn_attacks ||| opponent_attacks) target_square
        if opponent_can_recapture then
          pure (score +
            (if 0 ≤ capture_material_delta then WINNING_CAPTURE_BIAS else LOSING_CAPTURE_BIAS) +
            capture_material_delta)
        else pure (score + WINNING_CAPTURE_BIAS + capture_material_delta)
      else pure score
    let score ←
      if move_piece_type = Piece.PAWN then
        if flag = PROMOTE_TO_QUEEN_FLAG ∧ ¬is_capture then pure (score + PROMOTE_BIAS)
        else pure score
      else do
        let to_score ← pstRead move_square target_square
        let from_score ← pstRead move_square start_square
        let score := score + to_score - from_score
        if bbContainsSquare opponent_pawn_attacks target_square then pure (score - 50)
        else if bbContainsSquare opponent_attacks target_square then pure (score - 25)
        else pure score
    if ¬is_capture then do
      let is_killer ←
        if ¬in_q_search ∧ ply < (MAX_KILLER_MOVE_PLY : Int) then do
          let k ← rustGet MAX_KILLER_MOVE_PLY mo.killer_moves ply
          pure (k.matches mv)
        else pure false
      let score := score + (if is_killer then KILLER_BIAS else REGULAR_BIAS)
      let mc := b.move_color
      let h := mo.history mc (toU32 start_square % 64) (toU32 target_square % 64)
      pure (score + h)
    else pure score

/-- Swap of two entries of the `[i32; MAX_MOVES]` score array with its
bounds checks. -/
def swapScores (scores : Nat → Int) (i j : Nat) : Option (Nat → Int) := do
  let a ← rustGetN MAX_MOVES scores i
  let b ← rustGetN MAX_MOVES scores j
  let s1 ← rustSetN MAX_MOVES scores i b
  rustSetN MAX_MOVES s1 j a

/-- Function `partition` of `move_ordering.rs`: Lomuto partition with the
`usize` initialisation `i = low - 1` (wrapping) and the bounds checks of
the array accesses. -/
def partitionM (moves : List Move) (scores : Nat → Int) (low high : Nat) :
    Option (List Move × (Nat → Int) × Nat) := do
  let pivot_score ← rustGetN MAX_MOVES scores high
  let st ← (List.range (high - low)).foldlM
    (fun (st : List Move × (Nat → Int) × Nat) jo => do
      let j := low + jo
      let (moves, scores, i) := st
      let sj ← rustGetN MAX_MOVES scores j
      if pivot_score < sj then do
        let i1 := (i + 1) % U64MOD
        let moves ← vecSwap moves i1 j
        let scores ← swapScores scores i1 j
        pure (moves, scores, i1)
      else pure st)
    (moves, scores, usizeSub low 1)
  let (moves, scores, i) := st
  let i1 := (i + 1) % U64MOD
  let moves ← vecSwap moves i1 high
  let scores ← swapScores scores i1 high
  pure (moves, scores, i1)

/-- Function `quicksort` of `move_ordering.rs`, fuelled for termination;
the recursive call bounds use wrapping `usize` arithmetic
(`pivot_idx - 1`). -/
def quicksortM : Nat → List Move → (Nat → Int) → Nat → Nat →
    Option (List Move × (Nat → Int))
  | 0, _, _, _, _ => none
  | fuel + 1, moves, scores, low, high =>
    if low < high then do
      let (moves, scores, pivot_idx) ← partitionM moves scores low high
      let (moves, scores) ← quicksortM fuel moves scores low (usizeSub pivot_idx 1)
      quicksortM fuel moves scores (pivot_idx + 1) high
    else some (moves, scores)

/-- Method `MoveOrdering::order_moves`: scores every move (the unused
`_opponent_pieces` / `_pawn_attacks` bindings of the source are pure reads
and omitted), then quicksorts with `high = moves.len() - 1`, which wraps
for an empty move list. -/
def MoveOrdering.order_moves (mo : MoveOrdering) (b : Board) (hash_move : Move)
    (moves : List Move) (opponent_attacks opponent_pawn_attacks : Nat)
    (in_q_search : Bool) (ply : Int) : Option (List Move × MoveOrdering) := do
  let scores ← (List.range moves.length).foldlM
    (fun (sc : Nat → Int) i => do
      let mv ← vecGet moves i
      let v ← mo.scoreOf b hash_move mv opponent_attacks opponent_pawn_attacks in_q_search ply
      rustSetN MAX_MOVES sc i v)
    mo.move_scores
  let (moves, scores) ← quicksortM 1024 moves scores 0 (usizeSub moves.length 1)
  pure (moves, { mo with move_scores := scores })

/- ### searcher.rs -/

/-- Searcher state from `searcher.rs`.  The wall-clock comparison
`search_timer.elapsed_total() >= 5s` is modelled by the `timer_expired`
field; the string diagnostics (`debug_info`, `search_diagnostics`) carry
no control flow and are omitted. -/
structure Searcher where
  current_depth : Int
  is_playing_white : Bool
  best_move_this_iteration : Move
  best_eval_this_iteration : Int
  best_move : Move
  best_eval : Int
  has_searched_at_least_one_move : Bool
  search_canceled : Bool
  timer_expired : Bool
  transposition_table : TranspositionTable
  repetition_table : RepetitionTable
  move_orderer : MoveOrdering

/-- Constructor `Searcher::new` (64 MB transposition table, empty
repetition table, fresh move orderer). -/
def Searcher.new : Searcher :=
  ⟨0, false, Move.null, 0, Move.null, 0, false, false, false,
    TranspositionTable.new 64, RepetitionTable.empty, MoveOrdering.new⟩

/-- Loop condition planted inside both move loops of `searcher.rs`: break
when any of the 15 piece lists of `all_piece_lists` holds exactly one
piece. -/
def Board.anyListCountOne (b : Board) : Bool :=
  (List.range 15).any (fun i => (b.all_piece_lists i).count = 1)

/-- Result of the move loop of `Searcher::search`: an early return (beta
cutoff or cancellation) or fall-through to the post-loop store. -/
inductive SearchLoopResult where
  | early (v : Int) (b : Board) (s : Searcher)
  | finished (alpha : Int) (bound : Int) (best : Move) (b : Board) (s : Searcher)

/-- Body of `Searcher::search`, transcribed from `searcher.rs`, with the
recursive callees (`quiescence_search` and the move loop) passed as the
parameters `quiesce` and `loop` so the fuelled recursion below stays
small; `evalFn` stands for the static evaluator. -/
def searchBody (evalFn : Board → Int)
    (quiesce : Board → Searcher → Int → Int → Int → Option (Int × Board × Searcher))
    (loop : Board → Searcher → List Move → Nat → Int → Int → Int → Int → Int → Int →
      Move → Option SearchLoopResult)
    (board : Board) (s : Searcher) (ply_remaining ply_from_root alpha0 beta0
    num_extensions : Int) (previous_move : Move) (previous_move_was_capture : Bool) :
    Option (Int × Board × Searcher) :=
    if s.search_canceled then some (0, board, s)
    else if s.timer_expired then some (0, board, { s with search_canceled := true })
    else if SEARCH_MAX_PLY ≤ ply_from_root then some (evalFn board, board, s)
    else do
      let draw ←
        if 0 < ply_from_root then do
          let c ← s.repetition_table.contains board.state.zobrist.key
          pure (decide (100 ≤ board.state.halfmove_clock) || c)
        else pure false
      if draw then some (0, board, s)
      else do
        let alpha :=
          if 0 < ply_from_root then max alpha0 (-IMMEDIATE_MATE_SCORE + ply_from_root)
          else alpha0
        let beta :=
          if 0 < ply_from_root then min beta0 (IMMEDIATE_MATE_SCORE - ply_from_root)
          else beta0
        if 0 < ply_from_root ∧ beta ≤ alpha then some (alpha, board, s)
        else do
          let tt_val ← s.transposition_table.lookup_evaluation board ply_remaining
            ply_from_root alpha beta
          if tt_val ≠ LOOKUP_FAILED then do
            let sm ← s.transposition_table.try_get_stored_move board
            let i ← s.transposition_table.index board
            let s :=
              match sm, s.transposition_table.entries i with
              | some mv, some e =>
                if ply_from_root = 0 then
                  { s with best_move_this_iteration := mv,
                           best_eval_this_iteration := e.value }
                else s
              | _, _ => s
            some (tt_val, board, s)
          else if ply_remaining ≤ 0 then
            quiesce board s alpha beta s.current_depth
          else do
            let (moves, mg, board) ← board.generate_moves false
            let previous_best_move ←
              if ply_from_root = 0 then pure s.best_move
              else do
                let sm ← s.transposition_table.try_get_stored_move board
                pure (sm.getD Move.null)
            let (moves, mo) ← s.move_orderer.order_moves board previous_best_move moves
              mg.opponent_attack_map mg.opponent_pawn_attack_map false ply_from_root
            let s := { s with move_orderer := mo }
            if moves.length = 0 then
              if mg.in_check then
                some (-(IMMEDIATE_MATE_SCORE - ply_from_root), board, s)
              else some (0, board, s)
            else do
              let s ←
                if 0 < ply_from_root ∧ 0 < moves.length then do
                  let tp ← rustGet 64 board.squares previous_move.target_square
                  let was_pawn_move := Piece.get_type tp = Piece.PAWN
                  let rt := s.repetition_table.push board.state.zobrist.key
                    (previous_move_was_capture ∨ was_pawn_move)
                  pure { s with repetition_table := rt }
                else pure s
              let r ← loop board s moves 0 ply_remaining ply_from_root
                alpha beta num_extensions UPPER_BOUND Move.null
              match r with
              | SearchLoopResult.early v board s => some (v, board, s)
              | SearchLoopResult.finished alpha bound best board s =>
                let s :=
                  if 0 < ply_from_root then
                    { s with repetition_table := s.repetition_table.try_pop }
                  else s
                let tt ← s.transposition_table.store_evaluation best board ply_remaining
                  ply_from_root alpha bound
                some (alpha, board, { s with transposition_table := tt })

/-- Move loop of `Searcher::search` (`for i in 0..moves.len()`), with the
piece-list break, the extension logic (whose `is_in_check` call reaches the
`todo!()` of `calculate_in_check_state`), late-move reduction, beta cutoff
with killer/history updates, and alpha improvement; `recSearch` is the
recursive `search` call and `recLoop` the next loop iteration. -/
def searchLoopBody
    (recSearch : Board → Searcher → Int → Int → Int → Int → Int → Move → Bool →
      Option (Int × Board × Searcher))
    (recLoop : Board → Searcher → List Move → Nat → Int → Int → Int → Int → Int → Int →
      Move → Option SearchLoopResult)
    (board : Board) (s : Searcher) (rest : List Move) (i : Nat)
    (ply_remaining ply_from_root alpha beta num_extensions evaluation_bound : Int)
    (best : Move) : Option SearchLoopResult :=
  match rest with
  | [] => some (SearchLoopResult.finished alpha evaluation_bound best board s)
  | mv :: tail =>
    if board.anyListCountOne then
      some (SearchLoopResult.finished alpha evaluation_bound best board s)
    else do
      let cp ← rustGet 64 board.squares mv.target_square
      let captured_piece_type := Piece.get_type cp
      let is_capture := captured_piece_type ≠ Piece.NONE
      let board ← board.make_move mv true
      let extension ←
        if num_extensions < MAX_EXTENSIONS then do
          let mp ← rustGet 64 board.squares mv.target_square
          let moved_piece_type := Piece.get_type mp
          let target_rank := Coord.rank_of_square mv.target_square
          let pr ← board.is_in_check
          let chk := pr.1
          let board := pr.2
          if chk then pure ((1 : Int), board)
          else if moved_piece_type = Piece.PAWN ∧ (target_rank = 1 ∨ target_rank = 6) then
            pure ((1 : Int), board)
          else pure ((0 : Int), board)
        else pure ((0 : Int), board)
      let board := extension.2
      let ext := extension.1
      let lmr ←
        if ext = 0 ∧ 3 ≤ ply_remaining ∧ 3 ≤ (i : Int) ∧ ¬is_capture then do
          let reduced_ply := max (ply_remaining - 1 - REDUCE_DEPTH) 0
          let r ← recSearch board s reduced_ply (ply_from_root + 1)
            (-alpha - 1) (-alpha) num_extensions mv is_capture
          let eval := -r.1
          pure (eval, r.2.1, r.2.2, decide (alpha < eval))
        else pure ((0 : Int), board, s, true)
      let (eval0, board, s, needs_full_search) := lmr
      let full ←
        if needs_full_search then do
          let next_ply := max (ply_remaining - 1 + ext) 0
          let r ← recSearch board s next_ply (ply_from_root + 1) (-beta)
            (-alpha) (num_extensions + ext) mv is_capture
          pure (-r.1, r.2.1, r.2.2)
        else pure (eval0, board, s)
      let (eval, board, s) := full
      let board ← board.unmake_move mv true
      if s.search_canceled then some (SearchLoopResult.early 0 board s)
      else if beta ≤ eval then do
        let tt ← s.transposition_table.store_evaluation mv board ply_remaining
          ply_from_root beta LOWER_BOUND
        let s := { s with transposition_table := tt }
        let s ←
          if ¬is_capture then do
            let s ←
              if ply_from_root < (MAX_KILLER_MOVE_PLY : Int) then do
                let k ← rustGet MAX_KILLER_MOVE_PLY s.move_orderer.killer_moves ply_from_root
                let km ← rustSet MAX_KILLER_MOVE_PLY s.move_orderer.killer_moves ply_from_root
                  (k.add mv)
                pure { s with move_orderer := { s.move_orderer with killer_moves := km } }
              else pure s
            let history_score := ply_remaining * ply_remaining
            let mc := board.move_color
            let fs := toU32 mv.start_square % 64
            let ts := toU32 mv.target_square % 64
            let h := s.move_orderer.history
            let h1 := fun c f t =>
              if c = mc ∧ f = fs ∧ t = ts then h c f t + history_score else h c f t
            pure { s with move_orderer := { s.move_orderer with history := h1 } }
          else pure s
        let s :=
          if 0 < ply_from_root then
            { s with repetition_table := s.repetition_table.try_pop }
          else s
        some (SearchLoopResult.early beta board s)
      else do
        let st :=
          if alpha < eval then
            let s :=
              if ply_from_root = 0 then
                { s with best_move_this_iteration := mv, best_eval_this_iteration := eval,
                         has_searched_at_least_one_move := true }
              else s
            (EXACT, mv, eval, s)
          else (evaluation_bound, best, alpha, s)
        recLoop board st.2.2.2 tail (i + 1) ply_remaining ply_from_root
          st.2.2.1 beta num_extensions st.1 st.2.1

/-- Body of `Searcher::quiescence_search`, transcribed from `searcher.rs`,
with the capture loop passed as `qloop`. -/
def quiescenceBody (evalFn : Board → Int)
    (qloop : Board → Searcher → List Move → Int → Int → Int →
      Option (Int × Board × Searcher))
    (board : Board) (s : Searcher) (alpha beta depth : Int) :
    Option (Int × Board × Searcher) :=
    if s.search_canceled then some (0, board, s)
    else if SEARCH_MAX_PLY < depth then some (evalFn board, board, s)
    else do
      let eval := evalFn board
      if beta ≤ eval then some (beta, board, s)
      else do
        let alpha := if alpha < eval then eval else alpha
        let (moves, mg, board) ← board.generate_moves true
        let (moves, mo) ← s.move_orderer.order_moves board Move.null moves
          mg.opponent_attack_map mg.opponent_pawn_attack_map true 0
        let s := { s with move_orderer := mo }
        qloop board s moves alpha beta depth

/-- Capture loop of `Searcher::quiescence_search`, with the same
piece-list break as the main loop; `recQuiesce` is the recursive
`quiescence_search` call and `recQLoop` the next loop iteration. -/
def qsearchLoopBody
    (recQuiesce : Board → Searcher → Int → Int → Int → Option (Int × Board × Searcher))
    (recQLoop : Board → Searcher → List Move → Int → Int → Int →
      Option (Int × Board × Searcher))
    (board : Board) (s : Searcher) (rest : List Move) (alpha beta depth : Int) :
    Option (Int × Board × Searcher) :=
  match rest with
  | [] => some (alpha, board, s)
  | mv :: tail =>
    if board.anyListCountOne then some (alpha, board, s)
    else do
      let board ← board.make_move mv true
      let r ← recQuiesce board s alpha beta (depth + 1)
      let eval := -r.1
      let board ← r.2.1.unmake_move mv true
      let s := r.2.2
      if beta ≤ eval then some (beta, board, s)
      else
        recQLoop board s tail (if alpha < eval then eval else alpha)
          beta depth

mutual

/-- Method `Searcher::search`: the fuelled recursion tying `searchBody` to
its callees (each recursive call of the source consumes one unit of
fuel). -/
def searchM (evalFn : Board → Int) : Nat → Board → Searcher → Int → Int → Int → Int →
    Int → Move → Bool → Option (Int × Board × Searcher)
  | 0, _, _, _, _, _, _, _, _, _ => none
  | fuel + 1, board, s, a, b, c, d, e, f, g =>
    searchBody evalFn (quiescenceM evalFn fuel) (searchLoopM evalFn fuel) board s
      a b c d e f g
termination_by structural fuel => fuel

/-- Move loop of `Searcher::search`, fuelled. -/
def searchLoopM (evalFn : Board → Int) : Nat → Board → Searcher → List Move → Nat →
    Int → Int → Int → Int → Int → Int → Move → Option SearchLoopResult
  | 0, _, _, _, _, _, _, _, _, _, _, _ => none
  | fuel + 1, board, s, rest, i, a, b, c, d, e, f, g =>
    searchLoopBody (searchM evalFn fuel) (searchLoopM evalFn fuel) board s rest i
      a b c d e f g
termination_by structural fuel => fuel

/-- Method `Searcher::quiescence_search`, fuelled. -/
def quiescenceM (evalFn : Board → Int) : Nat → Board → Searcher → Int → Int → Int →
    Option (Int × Board × Searcher)
  | 0, _, _, _, _, _ => none
  | fuel + 1, board, s, a, b, c =>
    quiescenceBody evalFn (qsearchLoopM evalFn fuel) board s a b c
termination_by structural fuel => fuel

/-- Capture loop of `Searcher::quiescence_search`, fuelled. -/
def qsearchLoopM (evalFn : Board → Int) : Nat → Board → Searcher → List Move →
    Int → Int → Int → Option (Int × Board × Searcher)
  | 0, _, _, _, _, _, _ => none
  | fuel + 1, board, s, rest, a, b, c =>
    qsearchLoopBody (quiescenceM evalFn fuel) (qsearchLoopM evalFn fuel) board s
      rest a b c
termination_by structural fuel => fuel

end

/- ### perft and specification-side definitions -/

/-- Modelled from the spec: perft, the leaf count of the legal-move game
tree (§8 of the spec); the repository has no perft function, so the
standard definition is used over the repository's `generate_moves` and
`make_move` (boards are persistent values here, so no unmake is needed). -/
def perftM : Nat → Board → Option Nat
  | 0, _ => some 1
  | d + 1, b => do
    let (mvs, _, b1) ← b.generate_moves false
    mvs.foldlM
      (fun acc m => do
        let b2 ← b1.make_move m true
        let n ← perftM d b2
        pure (acc + n))
      0

/-- Modelled from the spec: whether the side with color index `byColor`
attacks `sq` on the given occupancy, following the spec's attack
composition (§4.3: sliders by ray walk over the occupancy, knight, king
and pawn attack sets).  The repository's own check computation,
`Board::calculate_in_check_state`, is `todo!()`. -/
def specSquareAttacked (b : Board) (sq : Int) (byColor : Nat) : Bool :=
  let pc := colorToPieceColor byColor
  let occ := b.all_piece_bb
  let rookLike := legal_move_bb sq occ true
  let bishLike := legal_move_bb sq occ false
  let pieceAt := fun (t : Int) => toU32 (Piece.fromTypeColor t pc)
  let bbOf := fun (t : Int) => b.piece_bbs (pieceAt t % 16)
  (Nat.land rookLike (bbOf Piece.ROOK ||| bbOf Piece.QUEEN) ≠ 0) ∨
  (Nat.land bishLike (bbOf Piece.BISHOP ||| bbOf Piece.QUEEN) ≠ 0) ∨
  (Nat.land (bbKnightAttacks (toU32 sq % 64)) (bbOf Piece.KNIGHT) ≠ 0) ∨
  (Nat.land (bbKingMoves (toU32 sq % 64)) (bbOf Piece.KING) ≠ 0) ∨
  (bbContainsSquare (bbPawnAttacks (bbOf Piece.PAWN) (byColor = 0)) sq)

/-- Specification-side Zobrist formula of claim C5 / spec invariant 5: the
XOR reduction of the (piece, square) keys of the occupied squares, the
side-to-move key when Black is to move, the castling-rights key and the
en-passant-file key of the current state. -/
def specZobristKey (b : Board) : Nat :=
  let pieces := (List.range 64).foldl
    (fun key sq =>
      let p := b.squares sq
      if Piece.get_type p ≠ Piece.NONE then
        Nat.xor key (b.state.zobrist.pieces_array (toU32 p) sq)
      else key)
    0
  let side := if ¬b.white_to_move then b.state.zobrist.side_to_move else 0
  let castle := b.state.zobrist.castling_rights (toU32 b.state.castling_rights % 16)
  let ep := b.state.zobrist.en_passant_file (toU32 b.state.en_passant_file % 16)
  Nat.xor (Nat.xor (Nat.xor pieces side) castle) ep

/- ### Concrete positions and tables used by the theorems -/

/-- FEN of a pawn-capture test position (white pawn e4, black pawn d5). -/
def FEN_PAWN_CAP : String := "k7/8/8/3p4/4P3/8/8/K7 w - - 0 1"

/-- FEN of a position whose knight on e2 is pinned to the king on e1 by the
rook on e8. -/
def FEN_PINNED_KNIGHT : String := "4r2k/8/8/8/8/8/4N3/4K3 w - - 0 1"

/-- FEN of the spec's en-passant-pin test position (section 8): the
en-passant capture c5xd6 is legal there. -/
def FEN_EP_PIN : String := "8/8/8/K1Pp3r/8/8/8/7k w - d6 0 1"

/-- FEN of a stalemate position: the white king on a1 has no legal move and
is not in check against the queen on c2 and king on h8. -/
def FEN_STALEMATE : String := "7k/8/8/8/8/8/2q5/K7 w - - 0 1"

/-- FEN of a position whose three legal moves (Ng1xe2, Ng1-f3, Ng1-h3) get
pairwise distinct ordering scores, so `order_moves` succeeds, while the
white knight list holds exactly one piece, so the move loop breaks. -/
def FEN_BREAK : String := "7k/8/7n/8/8/p1p5/P1p1p3/K5N1 w - - 0 1"

/-- Board loaded from `FEN_STALEMATE`. -/
def c6Board : Board := (board_from_fen FEN_STALEMATE).getD Board.new

/-- Result triple of `generate_moves(false)` at `c6Board`. -/
def c6Gen : List Move × MoveGenerator × Board :=
  (c6Board.generate_moves false).getD ([], MoveGenerator.default, Board.new)

/-- Board loaded from the standard starting FEN. -/
def startBoard : Board := (board_from_fen STARTING_FEN).getD Board.new

/-- Result triple of `generate_moves(false)` at `startBoard`. -/
def startGen : List Move × MoveGenerator × Board :=
  (startBoard.generate_moves false).getD ([], MoveGenerator.default, Board.new)

/-- Board loaded from `FEN_BREAK`. -/
def c10Board : Board := (board_from_fen FEN_BREAK).getD Board.new

/-- Result triple of `generate_moves(false)` at `c10Board`. -/
def c10Gen : List Move × MoveGenerator × Board :=
  (c10Board.generate_moves false).getD ([], MoveGenerator.default, Board.new)

/-- Result of `order_moves` on the main-search move list at `c10Board`. -/
def c10Ord : List Move × MoveOrdering :=
  (Searcher.new.move_orderer.order_moves c10Gen.2.2 Move.null c10Gen.1
    c10Gen.2.1.opponent_attack_map c10Gen.2.1.opponent_pawn_attack_map false 1).getD
    ([], MoveOrdering.new)

/-- Transposition table after the break-node store at `c10Board`. -/
def c10TT2 : TranspositionTable :=
  (Searcher.new.transposition_table.store_evaluation Move.null c10Gen.2.2 3 1 (-10)
    UPPER_BOUND).getD (TranspositionTable.new 64)

/-- Result triple of `generate_moves(true)` (captures only) at `c10Board`. -/
def c10QGen : List Move × MoveGenerator × Board :=
  (c10Board.generate_moves true).getD ([], MoveGenerator.default, Board.new)

/-- Result of `order_moves` on the quiescence move list at `c10Board`. -/
def c10QOrd : List Move × MoveOrdering :=
  (Searcher.new.move_orderer.order_moves c10QGen.2.2 Move.null c10QGen.1
    c10QGen.2.1.opponent_attack_map c10QGen.2.1.opponent_pawn_attack_map true 0).getD
    ([], MoveOrdering.new)

/-- Transposition-table entry stored for `Board.new`: an `EXACT` node of
depth 5 holding the mate-range value 99500. -/
def c8Entry : Entry := ⟨Board.new.state.zobrist.key, 99500, Move.null, 5, 0⟩

/-- One-slot transposition table holding `c8Entry` at index 0. -/
def c8TT : TranspositionTable := ⟨fun j => if j = 0 then some c8Entry else none, 1, true⟩

/- ### Helper lemmas -/

/-- Reduction of an option bind whose argument is `some`. -/
theorem opt_bind_some {α β : Type} (a : α) (f : α → Option β) :
    ((do let x ← some a
         f x) : Option β) = f a := rfl

/-- Reduction of an option bind whose argument is `pure`. -/
theorem opt_pure_bind {α β : Type} (a : α) (f : α → Option β) :
    ((do let x ← (pure a : Option α)
         f x) : Option β) = f a := rfl

/-- Reduction of an option bind whose argument is `none`. -/
theorem opt_bind_none {α β : Type} (f : α → Option β) :
    ((do let x ← (none : Option α)
         f x) : Option β) = none := rfl

/-- One-step unfolding of the fuelled `search`. -/
theorem searchM_succ (evalFn : Board → Int) (fuel : Nat) (board : Board) (s : Searcher)
    (a b c d e : Int) (f : Move) (g : Bool) :
    searchM evalFn (fuel + 1) board s a b c d e f g =
      searchBody evalFn (quiescenceM evalFn fuel) (searchLoopM evalFn fuel) board s
        a b c d e f g := rfl

/-- One-step unfolding of the fuelled search move loop. -/
theorem searchLoopM_succ (evalFn : Board → Int) (fuel : Nat) (board : Board) (s : Searcher)
    (rest : List Move) (i : Nat) (a b c d e f : Int) (g : Move) :
    searchLoopM evalFn (fuel + 1) board s rest i a b c d e f g =
      searchLoopBody (searchM evalFn fuel) (searchLoopM evalFn fuel) board s rest i
        a b c d e f g := rfl

/-- One-step unfolding of the fuelled quiescence search. -/
theorem quiescenceM_succ (evalFn : Board → Int) (fuel : Nat) (board : Board) (s : Searcher)
    (a b c : Int) :
    quiescenceM evalFn (fuel + 1) board s a b c =
      quiescenceBody evalFn (qsearchLoopM evalFn fuel) board s a b c := rfl

/-- One-step unfolding of the fuelled quiescence capture loop. -/
theorem qsearchLoopM_succ (evalFn : Board → Int) (fuel : Nat) (board : Board) (s : Searcher)
    (rest : List Move) (a b c : Int) :
    qsearchLoopM evalFn (fuel + 1) board s rest a b c =
      qsearchLoopBody (quiescenceM evalFn fuel) (qsearchLoopM evalFn fuel) board s rest
        a b c := rfl

/-- When some piece list holds exactly one piece, the search move loop
breaks before examining its first move and reports the incoming bounds. -/
theorem searchLoopM_break (evalFn : Board → Int) (fuel : Nat) (board : Board) (s : Searcher)
    (mv : Move) (tail : List Move) (i : Nat) (pr pf alpha beta ne eb : Int) (best : Move)
    (hbreak : board.anyListCountOne = true) :
    searchLoopM evalFn (fuel + 1) board s (mv :: tail) i pr pf alpha beta ne eb best =
      some (SearchLoopResult.finished alpha eb best board s) := by
  rw [searchLoopM_succ]
  unfold searchLoopBody
  simp only [hbreak, if_true]

/-- When some piece list holds exactly one piece, the quiescence capture
loop breaks before examining its first move and returns the incoming
alpha. -/
theorem qsearchLoopM_break (evalFn : Board → Int) (fuel : Nat) (board : Board) (s : Searcher)
    (mv : Move) (tail : List Move) (alpha beta depth : Int)
    (hbreak : board.anyListCountOne = true) :
    qsearchLoopM evalFn (fuel + 1) board s (mv :: tail) alpha beta depth =
      some (alpha, board, s) := by
  rw [qsearchLoopM_succ]
  unfold qsearchLoopBody
  simp only [hbreak, if_true]

/-- At a quiet interior node (ply_remaining 3, ply_from_root 1, window
(-10, 10), no repetition, no stored evaluation), a failing `order_moves`
call propagates its panic through `search`. -/
theorem searchM_order_fail (evalFn : Board → Int) (fuel : Nat) (board b2 : Board)
    (s : Searcher) (mvs : List Move) (mg : MoveGenerator) (pbm : Option Move)
    (h1 : s.search_canceled = false)
    (h2 : s.timer_expired = false)
    (hrep : s.repetition_table.contains board.state.zobrist.key = some false)
    (hhc : board.state.halfmove_clock = 0)
    (hlk : s.transposition_table.lookup_evaluation board 3 1 (-10) 10 = some (-1))
    (hgen : board.generate_moves false = some (mvs, mg, b2))
    (hsm : s.transposition_table.try_get_stored_move b2 = some pbm)
    (hord : s.move_orderer.order_moves b2 (pbm.getD Move.null) mvs
      mg.opponent_attack_map mg.opponent_pawn_attack_map false 1 = none) :
    searchM evalFn (fuel + 1) board s 3 1 (-10) 10 0 Move.null false = none := by
  rw [searchM_succ]
  unfold searchBody
  rw [h1, h2, hrep, hhc]
  simp only [Bool.false_eq_true, if_false]
  rw [if_neg (by decide : ¬ (SEARCH_MAX_PLY ≤ (1:Int)))]
  rw [if_pos (by decide : (0:Int) < 1)]
  simp only [opt_bind_some]
  simp only [show decide ((100:Int) ≤ 0) = false from rfl, Bool.false_or, Bool.or_false,
    Bool.false_eq_true, if_false]
  simp only [eq_true (by norm_num : (0:Int) < 1), if_true]
  rw [show ((-10:Int) ⊔ (-IMMEDIATE_MATE_SCORE + 1)) = -10 from by
    rw [max_eq_left (by norm_num [IMMEDIATE_MATE_SCORE])]]
  rw [show ((10:Int) ⊓ (IMMEDIATE_MATE_SCORE - 1)) = 10 from by
    rw [min_eq_left (by norm_num [IMMEDIATE_MATE_SCORE])]]
  rw [if_neg (by norm_num : ¬(True ∧ (10:Int) ≤ -10))]
  rw [hlk]
  simp only [opt_bind_some]
  rw [if_neg (by norm_num [LOOKUP_FAILED] : ¬((-1:Int) ≠ LOOKUP_FAILED))]
  rw [if_neg (by norm_num : ¬((3:Int) ≤ 0))]
  rw [hgen]
  simp only [opt_bind_some]
  rw [if_neg (by norm_num : ¬((1:Int) = 0))]
  simp only [opt_pure_bind, Bool.false_eq_true, if_false]
  rw [hsm]
  simp only [opt_bind_some, opt_pure_bind]
  rw [hord]
  simp only [opt_bind_none]

/-- At a quiet interior node whose successor board after move generation
has a one-piece list, `search` runs the loop break and returns the
incoming alpha. -/
theorem searchM_break (evalFn : Board → Int) (fuel : Nat) (board b2 : Board)
    (s : Searcher) (mvs ms : List Move) (m1 : Move) (mg : MoveGenerator)
    (pbm : Option Move) (mo2 : MoveOrdering) (tt2 : TranspositionTable)
    (h1 : s.search_canceled = false)
    (h2 : s.timer_expired = false)
    (hrep : s.repetition_table.contains board.state.zobrist.key = some false)
    (hhc : board.state.halfmove_clock = 0)
    (hlk : s.transposition_table.lookup_evaluation board 3 1 (-10) 10 = some (-1))
    (hgen : board.generate_moves false = some (mvs, mg, b2))
    (hsm : s.transposition_table.try_get_stored_move b2 = some pbm)
    (hord : s.move_orderer.order_moves b2 (pbm.getD Move.null) mvs
      mg.opponent_attack_map mg.opponent_pawn_attack_map false 1 = some (m1 :: ms, mo2))
    (hbreak : b2.anyListCountOne = true)
    (hstore : s.transposition_table.store_evaluation Move.null b2 3 1 (-10) UPPER_BOUND =
      some tt2) :
    (searchM evalFn (fuel + 2) board s 3 1 (-10) 10 0 Move.null false).map
      (fun r => r.1) = some (-10) := by
  rw [show fuel + 2 = (fuel + 1) + 1 from rfl]
  rw [searchM_succ]
  unfold searchBody
  rw [h1, h2, hrep, hhc]
  simp only [Bool.false_eq_true, if_false]
  rw [if_neg (by decide : ¬ (SEARCH_MAX_PLY ≤ (1:Int)))]
  rw [if_pos (by decide : (0:Int) < 1)]
  simp only [opt_bind_some]
  simp only [show decide ((100:Int) ≤ 0) = false from rfl, Bool.false_or, Bool.or_false,
    Bool.false_eq_true, if_false]
  simp only [eq_true (by norm_num : (0:Int) < 1), if_true]
  rw [show ((-10:Int) ⊔ (-IMMEDIATE_MATE_SCORE + 1)) = -10 from by
    rw [max_eq_left (by norm_num [IMMEDIATE_MATE_SCORE])]]
  rw [show ((10:Int) ⊓ (IMMEDIATE_MATE_SCORE - 1)) = 10 from by
    rw [min_eq_left (by norm_num [IMMEDIATE_MATE_SCORE])]]
  rw [if_neg (by norm_num : ¬(True ∧ (10:Int) ≤ -10))]
  rw [hlk]
  simp only [opt_bind_some]
  rw [if_neg (by norm_num [LOOKUP_FAILED] : ¬((-1:Int) ≠ LOOKUP_FAILED))]
  rw [if_neg (by norm_num : ¬((3:Int) ≤ 0))]
  rw [hgen]
  simp only [opt_bind_some]
  rw [if_neg (by norm_num : ¬((1:Int) = 0))]
  simp only [opt_pure_bind, Bool.false_eq_true, if_false]
  rw [hsm]
  simp only [opt_bind_some, opt_pure_bind]
  rw [hord]
  simp only [opt_bind_some]
  simp only [List.length_cons]
  rw [if_neg (Nat.succ_ne_zero ms.length)]
  rw [if_pos (And.intro trivial (Nat.succ_pos ms.length))]
  rw [show rustGet 64 b2.squares Move.null.target_square = some (b2.squares 0) from rfl]
  simp only [opt_bind_some, opt_pure_bind]
  rw [searchLoopM_break evalFn fuel b2 _ m1 ms 0 3 1 (-10) 10 0 UPPER_BOUND Move.null hbreak]
  simp only [opt_bind_some]
  rw [hstore]
  rfl

/-- At a quiescence node below the stand-pat beta cutoff whose successor
board after capture generation has a one-piece list, `quiescence_search`
runs the loop break and returns the stand-pat-improved alpha. -/
theorem quiescenceM_break (evalFn : Board → Int) (fuel : Nat) (board b2 : Board)
    (s : Searcher) (mvs ms : List Move) (m1 : Move) (mg : MoveGenerator)
    (mo2 : MoveOrdering) (alpha beta : Int)
    (h1 : s.search_canceled = false)
    (hse : evalFn board < beta)
    (hgen : board.generate_moves true = some (mvs, mg, b2))
    (hord : s.move_orderer.order_moves b2 Move.null mvs
      mg.opponent_attack_map mg.opponent_pawn_attack_map true 0 = some (m1 :: ms, mo2))
    (hbreak : b2.anyListCountOne = true) :
    (quiescenceM evalFn (fuel + 2) board s alpha beta 0).map (fun r => r.1) =
      some (if alpha < evalFn board then evalFn board else alpha) := by
  rw [show fuel + 2 = (fuel + 1) + 1 from rfl]
  rw [quiescenceM_succ]
  unfold quiescenceBody
  rw [h1]
  simp only [Bool.false_eq_true, if_false]
  rw [if_neg (by decide : ¬ (SEARCH_MAX_PLY < (0:Int)))]
  rw [if_neg (not_le.mpr hse)]
  rw [hgen]
  simp only [opt_bind_some]
  rw [hord]
  simp only [opt_bind_some]
  rw [qsearchLoopM_break evalFn fuel b2 _ m1 ms
    (if alpha < evalFn board then evalFn board else alpha) beta 0 hbreak]
  rfl

/-- Multiplying an integer by its own sign yields its absolute value. -/
theorem int_mul_sign_eq_abs (a : Int) : a * a.sign = |a| := by
  rcases lt_trichotomy a 0 with h | h | h
  · rw [Int.sign_eq_neg_one_iff_neg.mpr h, abs_of_neg h]; ring
  · subst h; simp
  · rw [Int.sign_eq_one_iff_pos.mpr h, abs_of_pos h]; ring

/- ### Claim theorems -/

/-- Claim C1: the spec gives perft(startpos) = 20, 400, 8902, ... for
depths 1-6. The embedded engine reaches 20 at depth 1 but panics at depth
2: generating Black's replies reads `king_squares[8]` out of bounds, so
every deeper perft value is unreachable. -/
theorem c1_perft_startpos :
    board_from_fen STARTING_FEN = some startBoard ∧
    perftM 1 startBoard = some 20 ∧
    perftM 2 startBoard = none := by
  exact ⟨by rfl, by rfl, by rfl⟩

/-- Claim C2: make_move followed by unmake_move is claimed to restore every
observable field. For the capture e4xd5 of `FEN_PAWN_CAP` (a generated
move), the mailbox array after make+unmake differs from the original:
unmake writes the captured piece to `squares[captured_piece]` instead of
`squares[target]`, and the capture snapshot is never entered into
`self.state`, so d5 stays empty. -/
theorem c2_make_unmake_not_restored :
    ((board_from_fen FEN_PAWN_CAP).bind
      (fun b => b.generate_moves false)).map
      (fun p => (p.1.map Move.value).contains (Move.fromStartTarget 28 35).value) =
      some true ∧
    ((do
      let b ← board_from_fen FEN_PAWN_CAP
      let b1 ← b.make_move (Move.fromStartTarget 28 35) true
      let b2 ← b1.unmake_move (Move.fromStartTarget 28 35) true
      pure (decide (b2.squaresList = b.squaresList))) : Option Bool) = some false := by
  exact ⟨by rfl, by rfl⟩

/-- Claim C3: every generated move is claimed legal. At
`FEN_PINNED_KNIGHT` the generator emits the pinned-knight move e2-c3
(squares 12 to 18), after which the white king on e1 (square 4) is
attacked by the rook on e8; and at the spec's own test position
`FEN_EP_PIN` the legal en-passant capture c5xd6 is not emitted, because
the en-passant file import is off by one. -/
theorem c3_pinned_knight_move_emitted :
    ((board_from_fen FEN_PINNED_KNIGHT).bind
      (fun b => b.generate_moves false)).map
      (fun p => (p.1.map Move.value).contains (Move.fromStartTarget 12 18).value) =
      some true ∧
    ((do
      let b ← board_from_fen FEN_PINNED_KNIGHT
      let b1 ← b.make_move (Move.fromStartTarget 12 18) true
      pure (specSquareAttacked b1 4 1)) : Option Bool) = some true ∧
    ((board_from_fen FEN_EP_PIN).bind
      (fun b => b.generate_moves false)).map
      (fun p => (p.1.map Move.value).contains (Move.fromParts 34 43 1).value) =
      some false := by
  exact ⟨by rfl, by rfl, by rfl⟩

/-- Claim C4: importing a FEN and exporting it with current_fen is claimed
to be the identity. Exporting the freshly imported starting position
yields "true KQkq - 0 1": the board loop `for rank in 7..=0` is an empty
range so no piece placement is emitted, and the side to move is printed
with Bool's Display as "true". -/
theorem c4_fen_export_broken :
    (board_from_fen STARTING_FEN).bind (fun b => b.current_fen false) =
      some ("true KQkq - 0 1") ∧
    ("true KQkq - 0 1" : String) ≠ STARTING_FEN := by
  exact ⟨by rfl, by decide⟩

/-- Claim C5: the incremental Zobrist key is claimed to equal the key
recomputed from scratch. After the generated opening move b1-a3 (squares
1 to 16) the incremental key differs both from the spec's XOR reduction
(`specZobristKey`) and from the engine's own from-scratch recomputation
`Zobrist::key` (which itself drops the side/castling/en-passant terms):
make_move omits the side-to-move flip and the castling re-hash among
other terms. -/
theorem c5_zobrist_incremental_diverges :
    ((board_from_fen STARTING_FEN).bind
      (fun b => b.generate_moves false)).map
      (fun p => (p.1.map Move.value).contains (Move.fromStartTarget 1 16).value) =
      some true ∧
    ((do
      let b ← board_from_fen STARTING_FEN
      let b1 ← b.make_move (Move.fromStartTarget 1 16) true
      pure (decide (b1.state.zobrist.key = specZobristKey b1))) : Option Bool) =
      some false ∧
    ((do
      let b ← board_from_fen STARTING_FEN
      let b1 ← b.make_move (Move.fromStartTarget 1 16) true
      pure (decide (b1.state.zobrist.key = b1.state.zobrist.keyOf b1.squares))) :
      Option Bool) = some false := by
  exact ⟨by rfl, by rfl, by rfl⟩

/-- Claim C6: with an empty move list the search is claimed to return
-(MATE - ply) in check and 0 in stalemate. At the stalemate position
`FEN_STALEMATE` the generator returns an empty list and no check, yet
`search` returns none rather than some 0: `order_moves` runs before the
empty-list test and its quicksort computes `moves.len() - 1`, which wraps
to 2^64 - 1 on the empty list and panics, so the mate/stalemate branch is
unreachable. -/
theorem c6_stalemate_search_panics :
    board_from_fen FEN_STALEMATE = some c6Board ∧
    c6Board.generate_moves false = some (c6Gen.1, c6Gen.2.1, c6Gen.2.2) ∧
    c6Gen.1 = [] ∧ c6Gen.2.1.in_check = false ∧
    searchM (fun _ => 0) 3 c6Board Searcher.new 3 1 (-10) 10 0 Move.null false = none := by
  refine ⟨by rfl, by rfl, by rfl, by rfl, ?_⟩
  exact searchM_order_fail (fun _ => 0) 2 c6Board c6Gen.2.2 Searcher.new c6Gen.1
    c6Gen.2.1 none (by rfl) (by rfl) (by rfl) (by rfl) (by rfl) (by rfl) (by rfl) (by rfl)

/-- Claim C7: UCI round-tripping is claimed to be the identity. The move
e2-e4 (squares 12 to 28, pawn-two-forward flag) prints as "e2e4", but
parsing "e2e4" back panics: from_uci slices the bytes 2..5 of the string
for the target square and a 4-character name has only 4 bytes. -/
theorem c7_uci_roundtrip_broken :
    (Move.fromParts 12 28 3).to_uci = some ("e2e4") ∧
    (board_from_fen STARTING_FEN).bind (fun b => Move.from_uci b ("e2e4")) = none := by
  exact ⟨by rfl, by rfl⟩

/-- Claim C8: the transposition-table probe returns a stored value only on
an exact key match with stored depth at least the probe depth; an EXACT
entry is returned unconditionally, an UPPER_BOUND entry only when its
ply-corrected value is at most alpha, a LOWER_BOUND entry only when it is
at least beta; mate scores are stored as (|score| + ply) * sign and
retrieved as (|score| - ply) * sign. -/
theorem c8_tt_probe (tt : TranspositionTable) (b : Board) (depth ply alpha beta : Int)
    (e : Entry)
    (hen : tt.enabled = true) (hcnt : 0 < tt.count)
    (hentry : tt.entries (b.state.zobrist.key % tt.count) = some e) :
    (∀ v, tt.lookup_evaluation b depth ply alpha beta = some v → v ≠ LOOKUP_FAILED →
      e.key = b.state.zobrist.key ∧ depth ≤ (e.depth : Int)) ∧
    ((e.key = b.state.zobrist.key ∧ depth ≤ (e.depth : Int)) →
      ((e.node_type = 0 → tt.lookup_evaluation b depth ply alpha beta =
          some (correct_retrieved_mate_score e.value ply)) ∧
       (e.node_type = 2 → tt.lookup_evaluation b depth ply alpha beta =
          some (if correct_retrieved_mate_score e.value ply ≤ alpha then
            correct_retrieved_mate_score e.value ply else LOOKUP_FAILED)) ∧
       (e.node_type = 1 → tt.lookup_evaluation b depth ply alpha beta =
          some (if beta ≤ correct_retrieved_mate_score e.value ply then
            correct_retrieved_mate_score e.value ply else LOOKUP_FAILED)))) ∧
    (∀ v p : Int, is_mate_score v = true →
      correct_mate_score_for_storage v p = (|v| + p) * v.sign ∧
      correct_retrieved_mate_score v p = (|v| - p) * v.sign) ∧
    (∀ v p : Int, is_mate_score v = false →
      correct_mate_score_for_storage v p = v ∧ correct_retrieved_mate_score v p = v) := by
  have hidx : tt.index b = some (b.state.zobrist.key % tt.count) := by
    unfold TranspositionTable.index
    rw [if_neg (Nat.pos_iff_ne_zero.mp hcnt)]
  have hbase : tt.lookup_evaluation b depth ply alpha beta =
      (if e.key = b.state.zobrist.key ∧ depth ≤ (e.depth : Int) then
        (if e.node_type = 0 then some (correct_retrieved_mate_score e.value ply)
         else if e.node_type = 2 then
           some (if correct_retrieved_mate_score e.value ply ≤ alpha then
             correct_retrieved_mate_score e.value ply else LOOKUP_FAILED)
         else if e.node_type = 1 then
           some (if beta ≤ correct_retrieved_mate_score e.value ply then
             correct_retrieved_mate_score e.value ply else LOOKUP_FAILED)
         else some LOOKUP_FAILED)
       else some LOOKUP_FAILED) := by
    unfold TranspositionTable.lookup_evaluation
    rw [hen]
    simp only [Bool.true_eq_false, not_false_eq_true, if_true, Bool.not_true]
    rw [hidx]
    simp only [opt_bind_some, hentry]
    rfl
  refine ⟨?_, ?_, ?_, ?_⟩
  · intro v hv hne
    by_cases hc : e.key = b.state.zobrist.key ∧ depth ≤ (e.depth : Int)
    · exact hc
    · rw [hbase, if_neg hc] at hv
      cases hv
      exact absurd rfl hne
  · intro hc
    rw [hbase, if_pos hc]
    refine ⟨?_, ?_, ?_⟩
    · intro h0; rw [if_pos h0]
    · intro h2
      rw [if_neg (by simp [h2]), if_pos h2]
    · intro h1
      rw [if_neg (by simp [h1]), if_neg (by simp [h1]), if_pos h1]
  · intro v p hm
    constructor
    · unfold correct_mate_score_for_storage
      rw [if_pos hm]
      show (v * v.sign + p) * v.sign = (|v| + p) * v.sign
      rw [int_mul_sign_eq_abs]
    · unfold correct_retrieved_mate_score
      rw [if_pos hm]
      show (v * v.sign - p) * v.sign = (|v| - p) * v.sign
      rw [int_mul_sign_eq_abs]
  · intro v p hm
    constructor
    · unfold correct_mate_score_for_storage
      rw [if_neg (by rw [hm]; exact Bool.false_ne_true)]
    · unfold correct_retrieved_mate_score
      rw [if_neg (by rw [hm]; exact Bool.false_ne_true)]

/-- Claim C8 witness: the probe of the one-slot table `c8TT` by `Board.new`
returns the stored EXACT value, and the storage corrections act as stated
on the mate score 99500 and the quiet score 50. -/
theorem c8_tt_probe_witness :
    c8TT.lookup_evaluation Board.new 3 0 (-10) 10 =
      some (correct_retrieved_mate_score c8Entry.value 0) ∧
    correct_mate_score_for_storage 99500 7 = (|(99500:Int)| + 7) * (99500:Int).sign ∧
    correct_mate_score_for_storage 50 7 = 50 := by
  refine ⟨?_, ?_, ?_⟩
  · exact ((c8_tt_probe c8TT Board.new 3 0 (-10) 10 c8Entry (by rfl) (by decide)
      (by rfl)).2.1 (by exact ⟨rfl, by decide⟩)).1 rfl
  · exact ((c8_tt_probe c8TT Board.new 3 0 (-10) 10 c8Entry (by rfl) (by decide)
      (by rfl)).2.2.1 99500 7 (by decide)).1
  · exact ((c8_tt_probe c8TT Board.new 3 0 (-10) 10 c8Entry (by rfl) (by decide)
      (by rfl)).2.2.2 50 7 (by decide)).1

/-- Claim C9: try_pop on an empty repetition table is claimed to leave the
count at 0. The count is a usize and `0.max(self.count - 1)` computes the
wrapping subtraction first, so the count becomes 2^64 - 1 rather than
0. -/
theorem c9_try_pop_underflows :
    RepetitionTable.empty.try_pop.count = U64MOD - 1 ∧
    RepetitionTable.empty.try_pop.count ≠ 0 := by
  exact ⟨by rfl, by decide⟩

/-- Claim C10 counterexample: the standard start position has a piece list
holding exactly one piece (each queen), yet `search` does not return the
incoming alpha bound of -10: `order_moves` panics on tied move scores
before the loop is reached, so the search returns none. -/
theorem c10_break_counterexample :
    board_from_fen STARTING_FEN = some startBoard ∧
    startBoard.anyListCountOne = true ∧
    searchM (fun _ => 0) 5 startBoard Searcher.new 3 1 (-10) 10 0 Move.null false =
      none := by
  refine ⟨by rfl, by rfl, ?_⟩
  exact searchM_order_fail (fun _ => 0) 4 startBoard startGen.2.2 Searcher.new startGen.1
    startGen.2.1 none (by rfl) (by rfl) (by rfl) (by rfl) (by rfl) (by rfl) (by rfl) (by rfl)

/-- Claim C10 amended: at a quiet interior search node (and at a quiescence
node below the beta cutoff) that move generation and move ordering survive
and whose post-generation board has a piece list holding exactly one
piece, the move loop breaks before making any move and the node's value
degenerates to the incoming alpha (for quiescence, the stand-pat-improved
alpha). -/
theorem c10_break_amended :
    (∀ (evalFn : Board → Int) (fuel : Nat) (board b2 : Board) (s : Searcher)
        (mvs ms : List Move) (m1 : Move) (mg : MoveGenerator) (pbm : Option Move)
        (mo2 : MoveOrdering) (tt2 : TranspositionTable),
      s.search_canceled = false → s.timer_expired = false →
      s.repetition_table.contains board.state.zobrist.key = some false →
      board.state.halfmove_clock = 0 →
      s.transposition_table.lookup_evaluation board 3 1 (-10) 10 = some (-1) →
      board.generate_moves false = some (mvs, mg, b2) →
      s.transposition_table.try_get_stored_move b2 = some pbm →
      s.move_orderer.order_moves b2 (pbm.getD Move.null) mvs mg.opponent_attack_map
        mg.opponent_pawn_attack_map false 1 = some (m1 :: ms, mo2) →
      b2.anyListCountOne = true →
      s.transposition_table.store_evaluation Move.null b2 3 1 (-10) UPPER_BOUND =
        some tt2 →
      (searchM evalFn (fuel + 2) board s 3 1 (-10) 10 0 Move.null false).map
        (fun r => r.1) = some (-10)) ∧
    (∀ (evalFn : Board → Int) (fuel : Nat) (board b2 : Board) (s : Searcher)
        (mvs ms : List Move) (m1 : Move) (mg : MoveGenerator) (mo2 : MoveOrdering)
        (alpha beta : Int),
      s.search_canceled = false → evalFn board < beta →
      board.generate_moves true = some (mvs, mg, b2) →
      s.move_orderer.order_moves b2 Move.null mvs mg.opponent_attack_map
        mg.opponent_pawn_attack_map true 0 = some (m1 :: ms, mo2) →
      b2.anyListCountOne = true →
      (quiescenceM evalFn (fuel + 2) board s alpha beta 0).map (fun r => r.1) =
        some (if alpha < evalFn board then evalFn board else alpha)) := by
  constructor
  · intro evalFn fuel board b2 s mvs ms m1 mg pbm mo2 tt2 h1 h2 h3 h4 h5 h6 h7 h8 h9 h10
    exact searchM_break evalFn fuel board b2 s mvs ms m1 mg pbm mo2 tt2 h1 h2 h3 h4 h5
      h6 h7 h8 h9 h10
  · intro evalFn fuel board b2 s mvs ms m1 mg mo2 alpha beta h1 h2 h3 h4 h5
    exact quiescenceM_break evalFn fuel board b2 s mvs ms m1 mg mo2 alpha beta h1 h2 h3
      h4 h5

/-- Claim C10 witness: at `FEN_BREAK` both loops break on the one-knight
list and the search node returns the incoming alpha -10 while the
quiescence node returns the stand-pat value 0. -/
theorem c10_break_amended_witness :
    (searchM (fun _ => 0) 7 c10Board Searcher.new 3 1 (-10) 10 0 Move.null false).map
      (fun r => r.1) = some (-10) ∧
    (quiescenceM (fun _ => 0) 7 c10Board Searcher.new (-10) 10 0).map (fun r => r.1) =
      some 0 := by
  constructor
  · exact c10_break_amended.1 (fun _ => 0) 5 c10Board c10Gen.2.2 Searcher.new c10Gen.1
      (c10Ord.1.tail) (c10Ord.1.headD Move.null) c10Gen.2.1 none c10Ord.2 c10TT2
      (by rfl) (by rfl) (by rfl) (by rfl) (by rfl) (by rfl) (by rfl) (by rfl) (by rfl)
      (by rfl)
  · have h := c10_break_amended.2 (fun _ => 0) 5 c10Board c10QGen.2.2 Searcher.new
      c10QGen.1 (c10QOrd.1.tail) (c10QOrd.1.headD Move.null) c10QGen.2.1 c10QOrd.2
      (-10) 10 (by rfl) (by norm_num) (by rfl) (by rfl) (by rfl)
    simpa using h

end Cactus
